import Mathlib

/-!
Verification of the eipconf reconciliation engine.

This file gives a shallow embedding, in Lean 4, of the reconciliation core of
the eipconf tool (a desired-state reconciler for GIF tunnel / VLAN / bridge
topologies, written in Go), and proves or refutes the frozen specification
claims about it.

Modelling conventions:
  - Go maps are modelled as association lists (List (String, v)); the live
    system only ever produces one entry per interface name, and every
    property proved below is insensitive to iteration order (emptiness,
    membership, or per-key facts), so the list order stands in for the
    unspecified Go map iteration order.
  - External effects are oracles passed as plain functions: the command
    executor is a function from an argument vector to a success flag, DNS
    lookup is a function from hostname to an optional address list, the
    interface-address query is a function from (iface, isIPv6) to an
    optional address, and the periodically polled interface listing is a
    function from poll index to an optional output string.
  - Wall-clock time is abstracted to counts: the retry delay and the removal
    poll are counted, with the source's numeric constants kept as named
    definitions (1 second delay, 50 ms poll interval, 10 s poll timeout).
  - Log output is modelled as a list of reports, each carrying a level and a
    short tag identifying the source log line.
  - Mutating actuation is modelled as the list of argument vectors passed to
    the external command (the command name is always the same in the
    source); read-only enumeration of interfaces is not part of the trace.
-/

namespace Eipconf

/-- Character-list test: pat begins the list l (models the prefix test
underlying Go strings.Contains / strings.HasPrefix). -/
def leadsWith : List Char → List Char → Bool
  | [], _ => true
  | _ :: _, [] => false
  | p :: ps, c :: cs => p == c && leadsWith ps cs

/-- Character-list test: pat occurs contiguously anywhere in l. -/
def occursIn (pat : List Char) : List Char → Bool
  | [] => leadsWith pat []
  | c :: cs => leadsWith pat (c :: cs) || occursIn pat cs

/-- Models Go strings.Contains(s, pat). -/
def strContains (s pat : String) : Bool :=
  occursIn pat.data s.data

/-- Models Go strings.HasPrefix(s, pat). -/
def strBegins (s pat : String) : Bool :=
  leadsWith pat.data s.data

/-- Space-like characters relevant to the tool's inputs (models the character
class used by Go strings.TrimSpace on the data this program handles). -/
def isSpaceChar (c : Char) : Bool :=
  c == ' ' || c == '\t' || c == '\n' || c == '\r'

/-- Models Go strings.TrimSpace, as applied by the observed-state scraper to
interface description lines. -/
def trimSpace (s : String) : String :=
  ⟨((s.data.dropWhile isSpaceChar).reverse.dropWhile isSpaceChar).reverse⟩

/-- Go map insertion on the association-list representation: replace the value
if the key is present, else append the binding. -/
def mapInsert {α : Type} (m : List (String × α)) (k : String) (v : α) : List (String × α) :=
  if k ∈ m.map Prod.fst then
    m.map (fun kv => if kv.1 == k then (k, v) else kv)
  else m ++ [(k, v)]

/-- Log levels of the slog calls made by the reconciliation core. -/
inductive Level
  | debug
  | info
  | warn
  | error
deriving DecidableEq, Repr

/-- One log report: a level and a tag identifying the source log statement. -/
structure Report where
  level : Level
  tag : String
deriving DecidableEq, Repr

/-- Raw tunnel spec entry, as decoded from the fetched JSON document
(struct TunnelConfig in the source). -/
structure TunnelConfig where
  tunnelID : String
  srcAddr : String
  dstAddr : String
  dstHostname : String
  vlanID : String
  ipVersion : String
  description : String
deriving DecidableEq, Repr

/-- Observed (or desired) attributes of one gif interface
(struct InterfaceConfig in the source). -/
structure InterfaceConfig where
  src : String
  dst : String
  vlan : String
  isIPv6 : Bool
  tunnelID : String
  description : String
deriving DecidableEq, Repr

/-- Observed (or desired) attributes of one bridge interface
(struct BridgeConfig in the source). -/
structure BridgeConfig where
  members : List String
  tunnelID : String
deriving DecidableEq, Repr

/-- The subset of the Settings struct consumed by the reconciliation core. -/
structure Settings where
  physicalIface : String
  defaultSrcAddr : String
  defaultSrcIface : String
deriving DecidableEq, Repr

/-- A resolved address as returned by the DNS oracle: its textual form and
whether the Go To4() conversion on it succeeds (IPv4 or v4-mapped). -/
structure IP where
  str : String
  isV4 : Bool
deriving DecidableEq, Repr

/-- Name of the gif interface derived from a spec (gif plus tunnel id). -/
def gifNameOf (c : TunnelConfig) : String :=
  "gif" ++ c.tunnelID

/-- Name of the bridge interface derived from a spec (bridge plus tunnel id). -/
def bridgeNameOf (c : TunnelConfig) : String :=
  "bridge" ++ c.tunnelID

/-- Name of the VLAN sub-interface derived from a spec: physical iface, dot,
vlan id. -/
def vlanNameOf (phys : String) (c : TunnelConfig) : String :=
  phys ++ "." ++ c.vlanID

/-- IP-version selection of fetchConfig: explicit ip_version wins, an empty
ip_version infers v6 from a colon in a non-empty src_addr (default v4), any
other value is rejected (none). -/
def ipVersionFlag (c : TunnelConfig) : Option Bool :=
  if c.ipVersion == "6" then some true
  else if c.ipVersion == "4" then some false
  else if c.ipVersion == "" then
    some (if c.srcAddr != "" then strContains c.srcAddr ":" else false)
  else none

/-- Source-address substitution of fetchConfig: an explicit src_addr is kept;
otherwise a configured default interface is queried (its failure rejects the
entry), else a configured static default address is used, else the entry is
rejected. Returns the address together with the informational reports, or the
rejection report. -/
def resolveSrc (st : Settings) (getIfAddr : String → Bool → Option String)
    (isIPv6 : Bool) (c : TunnelConfig) : Except Report (String × List Report) :=
  if c.srcAddr == "" then
    if st.defaultSrcIface != "" then
      match getIfAddr st.defaultSrcIface isIPv6 with
      | some a => .ok (a, [⟨.info, "Using interface address as src_addr"⟩])
      | none => .error ⟨.error, "Failed to get interface address"⟩
    else if st.defaultSrcAddr != "" then
      .ok (st.defaultSrcAddr, [⟨.info, "Using default src_addr"⟩])
    else .error ⟨.error, "Skipping tunnel due to missing src_addr and no default specified"⟩
  else .ok (c.srcAddr, [])

/-- Destination resolution of fetchConfig. An explicit dst_addr is kept.
With only a hostname: a failed lookup keeps an existing tunnel's current
destination (warning) or rejects the entry (error); a successful lookup keeps
the existing destination when it is among the results, else picks the first
result of the requested IP version, else falls back to the existing
destination (warning) or rejects (error). The empty string is the source's
not-found sentinel for resolved addresses. -/
def resolveDst (currentGifs : List (String × InterfaceConfig))
    (lookupIP : String → Option (List IP)) (isIPv6 : Bool)
    (c : TunnelConfig) : Except Report (String × List Report) :=
  let gif := gifNameOf c
  if c.dstAddr == "" && c.dstHostname != "" then
    match lookupIP c.dstHostname with
    | none =>
      match List.lookup gif currentGifs with
      | some cur => .ok (cur.dst, [⟨.warn, "Failed to resolve dst_hostname, using existing dst_addr"⟩])
      | none => .error ⟨.error, "Skipping tunnel due to unresolvable dst_hostname"⟩
    | some ips =>
      let keepAddr : String :=
        match List.lookup gif currentGifs with
        | some cur => if ips.any (fun ip => ip.str == cur.dst) then cur.dst else ""
        | none => ""
      if keepAddr != "" then
        .ok (keepAddr, [⟨.debug, "Keeping existing dst_addr from resolved IPs"⟩])
      else
        let pickStr : String :=
          match ips.find? (fun ip => if isIPv6 then !ip.isV4 else ip.isV4) with
          | some ip => ip.str
          | none => ""
        if pickStr == "" then
          match List.lookup gif currentGifs with
          | some cur => .ok (cur.dst, [⟨.warn, "No suitable IP found for dst_hostname, using existing dst_addr"⟩])
          | none => .error ⟨.error, "Skipping tunnel due to no suitable IP for dst_hostname"⟩
        else .ok (pickStr, [⟨.info, "Resolved dst_hostname to IP"⟩])
  else if c.dstAddr == "" && c.dstHostname == "" then
    .error ⟨.error, "Skipping tunnel due to missing both dst_addr and dst_hostname"⟩
  else .ok (c.dstAddr, [])

/-- Per-entry validation and resolution of fetchConfig, before the duplicate
checks: field checks, IP-version selection, source substitution, destination
resolution. Returns the fully resolved entry (none when skipped) and the
reports emitted while processing it. -/
def resolveEntry (st : Settings) (currentGifs : List (String × InterfaceConfig))
    (lookupIP : String → Option (List IP)) (getIfAddr : String → Bool → Option String)
    (c : TunnelConfig) : Option TunnelConfig × List Report :=
  if c.tunnelID == "" then
    (none, [⟨.error, "Skipping tunnel due to missing tunnel_id"⟩])
  else if c.vlanID == "" then
    (none, [⟨.error, "Skipping tunnel due to missing vlan_id"⟩])
  else
    match ipVersionFlag c with
    | none => (none, [⟨.error, "Skipping tunnel due to invalid ip_version"⟩])
    | some isIPv6 =>
      match resolveSrc st getIfAddr isIPv6 c with
      | .error r => (none, [r])
      | .ok (src, evs1) =>
        match resolveDst currentGifs lookupIP isIPv6 c with
        | .error r => (none, evs1 ++ [r])
        | .ok (dst, evs2) =>
          (some { c with srcAddr := src, dstAddr := dst }, evs1 ++ evs2)

/-- Duplicate report emitted when a resolved entry clashes on tunnel_id. -/
def dupTunnelReport : Report := ⟨.error, "Skipping tunnel due to duplicate tunnel_id"⟩

/-- Duplicate report emitted when a resolved entry clashes on dst_addr. -/
def dupDstReport : Report := ⟨.error, "Skipping tunnel due to duplicate dst_addr"⟩

/-- Duplicate report emitted when a resolved entry clashes on vlan_id. -/
def dupVlanReport : Report := ⟨.error, "Skipping tunnel due to duplicate vlan_id"⟩

/-- Accumulator of fetchConfig's validation loop: accepted entries, the three
first-seen duplicate-detection sets, and the reports so far. -/
structure FetchState where
  valid : List TunnelConfig
  tunnelIDs : List String
  dstAddrs : List String
  vlanIDs : List String
  events : List Report
deriving DecidableEq, Repr

/-- Empty accumulator. -/
def FetchState.init : FetchState := ⟨[], [], [], [], []⟩

/-- Duplicate stage of fetchConfig's validation loop: reject a resolved entry
on a duplicate tunnel_id, resolved dst_addr, or vlan_id against entries
accepted earlier, else accept it and record all three keys. -/
def fetchDedup (s : FetchState) (cv : TunnelConfig) (evs : List Report) : FetchState :=
  if cv.tunnelID ∈ s.tunnelIDs then
    { s with events := s.events ++ evs ++ [dupTunnelReport] }
  else if cv.dstAddr ∈ s.dstAddrs then
    { s with events := s.events ++ evs ++ [dupDstReport] }
  else if cv.vlanID ∈ s.vlanIDs then
    { s with events := s.events ++ evs ++ [dupVlanReport] }
  else
    { valid := s.valid ++ [cv],
      tunnelIDs := s.tunnelIDs ++ [cv.tunnelID],
      dstAddrs := s.dstAddrs ++ [cv.dstAddr],
      vlanIDs := s.vlanIDs ++ [cv.vlanID],
      events := s.events ++ evs }

/-- One iteration of fetchConfig's validation loop: resolve the entry, then
run the duplicate stage when it survived. -/
def fetchStep (st : Settings) (currentGifs : List (String × InterfaceConfig))
    (lookupIP : String → Option (List IP)) (getIfAddr : String → Bool → Option String)
    (s : FetchState) (c : TunnelConfig) : FetchState :=
  match resolveEntry st currentGifs lookupIP getIfAddr c with
  | (none, evs) => { s with events := s.events ++ evs }
  | (some cv, evs) => fetchDedup s cv evs

/-- The whole validation loop of fetchConfig over a decoded document. -/
def fetchValidate (st : Settings) (currentGifs : List (String × InterfaceConfig))
    (lookupIP : String → Option (List IP)) (getIfAddr : String → Bool → Option String)
    (configs : List TunnelConfig) : FetchState :=
  configs.foldl (fetchStep st currentGifs lookupIP getIfAddr) FetchState.init

/-- fetchConfig's overall result given the decoded document (none models a
fetch or JSON decode failure, in which case the cycle is aborted; a document
whose every entry is rejected still yields some with an empty list). -/
def fetchConfigResult (parsed : Option (List TunnelConfig)) (st : Settings)
    (currentGifs : List (String × InterfaceConfig))
    (lookupIP : String → Option (List IP)) (getIfAddr : String → Bool → Option String) :
    Option (List TunnelConfig) :=
  match parsed with
  | none => none
  | some cs => some (fetchValidate st currentGifs lookupIP getIfAddr cs).valid

/-- Order-insensitive member comparison of the source (membersEqual): equal
lengths and every element of the second list present in the first. -/
def membersEqual (m1 m2 : List String) : Bool :=
  m1.length == m2.length && m2.all (fun m => m1.contains m)

/-- The desired gif attribute record that calculateDiff derives from a spec;
its IPv6 flag is set when either address contains a colon. -/
def desiredGif (c : TunnelConfig) : InterfaceConfig :=
  { src := c.srcAddr, dst := c.dstAddr, vlan := c.vlanID,
    isIPv6 := strContains c.srcAddr ":" || strContains c.dstAddr ":",
    tunnelID := c.tunnelID, description := c.description }

/-- The desired bridge record that calculateDiff derives from a spec: exactly
the tunnel interface and the VLAN interface as members. -/
def desiredBridge (phys : String) (c : TunnelConfig) : BridgeConfig :=
  { members := [gifNameOf c, vlanNameOf phys c], tunnelID := c.tunnelID }

/-- The transition plan: the five classification sets of calculateDiff. -/
structure DiffResult where
  gifsToAdd : List (String × InterfaceConfig)
  gifsToModify : List (String × InterfaceConfig)
  gifsToRemove : List (String × InterfaceConfig)
  bridgesToAdd : List (String × BridgeConfig)
  bridgesToRemove : List (String × BridgeConfig)
deriving DecidableEq, Repr

/-- Tunnel equality test of calculateDiff: source, destination, IPv6 flag and
description all equal (descriptions compared verbatim). -/
def gifUpToDate (cur want : InterfaceConfig) : Bool :=
  cur.src == want.src && cur.dst == want.dst && cur.isIPv6 == want.isIPv6 &&
    cur.description == want.description

/-- The diff engine (calculateDiff): builds the desired gif and bridge maps
from the validated specs and classifies every gif as add, modify, remove or
unchanged, and every bridge as add (create or recreate), remove or unchanged. -/
def calculateDiff (currentGifs : List (String × InterfaceConfig))
    (currentBridges : List (String × BridgeConfig))
    (configs : List TunnelConfig) (physicalIface : String) : DiffResult :=
  let jsonGifs := configs.foldl (fun m c => mapInsert m (gifNameOf c) (desiredGif c)) []
  let jsonBridges := configs.foldl
    (fun m c => mapInsert m (bridgeNameOf c) (desiredBridge physicalIface c)) []
  { gifsToAdd := jsonGifs.filter (fun kv => (List.lookup kv.1 currentGifs).isNone)
    gifsToModify := jsonGifs.filter (fun kv =>
      match List.lookup kv.1 currentGifs with
      | some cur => !gifUpToDate cur kv.2
      | none => false)
    gifsToRemove := currentGifs.filter (fun kv => (List.lookup kv.1 jsonGifs).isNone)
    bridgesToAdd := jsonBridges.filter (fun kv =>
      match List.lookup kv.1 currentBridges with
      | some cur => !membersEqual cur.members kv.2.members
      | none => true)
    bridgesToRemove := currentBridges.filter (fun kv => (List.lookup kv.1 jsonBridges).isNone) }

/-- Argument vector of the tunnel endpoint configuration command: an inet6
keyword is inserted when the source address contains a colon. -/
def tunnelArgs (gif : String) (c : TunnelConfig) : List String :=
  [gif] ++ (if strContains c.srcAddr ":" then ["inet6"] else []) ++
    ["tunnel", c.srcAddr, c.dstAddr]

/-- Creation path for a gif interface in applyConfig: create, configure the
tunnel, set MTU 1500, set link0, bring up, set a non-empty description. A
failed create or tunnel configuration aborts this spec's remaining steps
(second component true); later command failures only log. -/
def gifCreate (ex : List String → Bool) (c : TunnelConfig) :
    List (List String) × Bool :=
  let gif := gifNameOf c
  if !ex [gif, "create"] then ([[gif, "create"]], true)
  else if !ex (tunnelArgs gif c) then ([[gif, "create"], tunnelArgs gif c], true)
  else
    ([[gif, "create"], tunnelArgs gif c, [gif, "mtu", "1500"], [gif, "link0"], [gif, "up"]]
      ++ (if c.description != "" then [[gif, "description", c.description]] else []), false)

/-- Update path for an existing gif interface in applyConfig: skip when the
source, destination, description and the observed IPv6 flag compared against
the source address only are all unchanged; otherwise reconfigure the tunnel
(no MTU command on this path). -/
def gifUpdate (ex : List String → Bool) (cur : InterfaceConfig) (c : TunnelConfig) :
    List (List String) × Bool :=
  let gif := gifNameOf c
  if cur.src == c.srcAddr && cur.dst == c.dstAddr &&
      cur.isIPv6 == strContains c.srcAddr ":" && cur.description == c.description then
    ([], false)
  else if !ex (tunnelArgs gif c) then ([tunnelArgs gif c], true)
  else
    ([tunnelArgs gif c, [gif, "link0"], [gif, "up"]]
      ++ (if c.description != "" then [[gif, "description", c.description]] else []), false)

/-- Gif reconciliation phase of applyConfig's per-spec loop. -/
def gifPhase (ex : List String → Bool) (currentGifs : List (String × InterfaceConfig))
    (forceReset : Bool) (c : TunnelConfig) : List (List String) × Bool :=
  match List.lookup (gifNameOf c) currentGifs with
  | some cur => if forceReset then gifCreate ex c else gifUpdate ex cur c
  | none => gifCreate ex c

/-- VLAN reconciliation phase of applyConfig's per-spec loop: skip when the
interface exists with the right tag (and no forced reset), else destroy a
stale one, create and configure; destroy or create failures abort this spec's
remaining steps. -/
def vlanPhase (ex : List String → Bool) (currentVLANs : List (String × String))
    (phys : String) (forceReset : Bool) (c : TunnelConfig) : List (List String) × Bool :=
  let v := vlanNameOf phys c
  let create : List (List String) → List (List String) × Bool := fun pre =>
    if !ex [v, "create"] then (pre ++ [[v, "create"]], true)
    else (pre ++ [[v, "create"], [v, "vlan", c.vlanID, "vlandev", phys, "up"]], false)
  match List.lookup v currentVLANs with
  | some vid =>
    if vid == c.vlanID && !forceReset then ([], false)
    else if !ex [v, "destroy"] then ([[v, "destroy"]], true)
    else create [[v, "destroy"]]
  | none => create []

/-- Creation path for a bridge in applyConfig: create, add both members, set
MTU 1500, bring up; a failed create ends this spec's steps. -/
def bridgeCreate (ex : List String → Bool) (phys : String) (c : TunnelConfig) :
    List (List String) :=
  let b := bridgeNameOf c
  if !ex [b, "create"] then [[b, "create"]]
  else [[b, "create"], [b, "addm", gifNameOf c], [b, "addm", vlanNameOf phys c],
        [b, "mtu", "1500"], [b, "up"]]

/-- Bridge reconciliation phase of applyConfig's per-spec loop: skip when the
membership matches (and no forced reset), else destroy and recreate with both
members (no MTU command on the recreate path). -/
def bridgePhase (ex : List String → Bool) (currentBridges : List (String × BridgeConfig))
    (phys : String) (forceReset : Bool) (c : TunnelConfig) : List (List String) :=
  let b := bridgeNameOf c
  match List.lookup b currentBridges with
  | some cur =>
    if forceReset then bridgeCreate ex phys c
    else if membersEqual cur.members [gifNameOf c, vlanNameOf phys c] then []
    else if !ex [b, "destroy"] then [[b, "destroy"]]
    else if !ex [b, "create"] then [[b, "destroy"], [b, "create"]]
    else [[b, "destroy"], [b, "create"], [b, "addm", gifNameOf c],
          [b, "addm", vlanNameOf phys c], [b, "up"]]
  | none => bridgeCreate ex phys c

/-- One iteration of applyConfig's per-spec loop: gif phase, then VLAN phase,
then bridge phase; an aborting failure in an earlier phase skips this spec's
later phases but never the other specs. -/
def applyStep (ex : List String → Bool) (st : Settings)
    (currentGifs : List (String × InterfaceConfig)) (currentVLANs : List (String × String))
    (currentBridges : List (String × BridgeConfig)) (forceReset : Bool)
    (c : TunnelConfig) : List (List String) :=
  let g := gifPhase ex currentGifs forceReset c
  if g.2 then g.1
  else
    let v := vlanPhase ex currentVLANs st.physicalIface forceReset c
    if v.2 then g.1 ++ v.1
    else g.1 ++ v.1 ++ bridgePhase ex currentBridges st.physicalIface forceReset c

/-- Destroy commands for a list of interface names. -/
def destroyCmds (l : List String) : List (List String) :=
  l.map (fun i => [i, "destroy"])

/-- The orphan VLAN cleanup set of applyConfig: every observed VLAN interface
name, of any parent interface, that no validated spec of this cycle names as
its VLAN interface. -/
def vlanCleanup (currentVLANs : List (String × String)) (configs : List TunnelConfig)
    (phys : String) : List String :=
  (currentVLANs.map Prod.fst).filter
    (fun v => !(configs.any (fun c => vlanNameOf phys c == v)))

/-- The apply engine (applyConfig) as the trace of the argument vectors it
passes to the command executor: destroy removed gifs, destroy removed
bridges, reconcile each validated spec in document order, then destroy every
orphan VLAN interface. -/
def applyConfig (d : DiffResult) (configs : List TunnelConfig) (st : Settings)
    (currentGifs : List (String × InterfaceConfig)) (currentVLANs : List (String × String))
    (currentBridges : List (String × BridgeConfig)) (forceReset : Bool)
    (ex : List String → Bool) : List (List String) :=
  destroyCmds (d.gifsToRemove.map Prod.fst)
    ++ destroyCmds (d.bridgesToRemove.map Prod.fst)
    ++ (configs.map (applyStep ex st currentGifs currentVLANs currentBridges forceReset)).flatten
    ++ destroyCmds (vlanCleanup currentVLANs configs st.physicalIface)

/-- Outcome of one attempt of the external command: whether it exited
successfully, and its combined output text. -/
structure Attempt where
  ok : Bool
  out : String
deriving DecidableEq, Repr

/-- Maximum number of attempts of the command executor. -/
def maxAttempts : Nat := 3

/-- Delay in seconds between command executor attempts. -/
def retryDelaySec : Nat := 1

/-- Retry loop of runCommand, with the attempt index and the remaining fuel:
returns success, the number of attempts spent, and the number of
one-second delays slept (a delay follows every failed attempt except the
last). An attempt succeeds when it exits cleanly or its output contains
the text: already exists. -/
def runCmdLoop (attempts : Nat → Attempt) (i : Nat) : Nat → Bool × Nat × Nat
  | 0 => (false, 0, 0)
  | fuel + 1 =>
    if (attempts i).ok then (true, 1, 0)
    else if strContains (attempts i).out "already exists" then (true, 1, 0)
    else
      ((runCmdLoop attempts (i + 1) fuel).1,
       (runCmdLoop attempts (i + 1) fuel).2.1 + 1,
       (runCmdLoop attempts (i + 1) fuel).2.2 + (if fuel > 0 then 1 else 0))

/-- The command executor (runCommand), given the per-attempt outcomes. -/
def runCommand (attempts : Nat → Attempt) : Bool × Nat × Nat :=
  runCmdLoop attempts 0 maxAttempts

/-- Removal poll interval in milliseconds. -/
def waitIntervalMs : Nat := 50

/-- Removal poll overall timeout in milliseconds. -/
def waitTimeoutMs : Nat := 10000

/-- Polling loop of waitForInterfacesRemoval: at each poll index the listing
oracle gives the live interface listing (none models a failed listing
command, which is logged as a warning and retried). Success as soon as a
listing contains none of the names; when the fuel (timeout divided by
interval) runs out, a timeout warning is the result. -/
def waitLoop (listings : Nat → Option String) (interfaces : List String) (t : Nat) :
    Nat → Bool × List Report
  | 0 => (false, [⟨.warn, "Timeout waiting for interfaces removal"⟩])
  | fuel + 1 =>
    match listings t with
    | none =>
      let rest := waitLoop listings interfaces (t + 1) fuel
      (rest.1, ⟨.warn, "Failed to check interfaces removal"⟩ :: rest.2)
    | some out =>
      if interfaces.all (fun i => !strContains out i) then
        (true, [⟨.debug, "All interfaces removed successfully"⟩])
      else waitLoop listings interfaces (t + 1) fuel

/-- waitForInterfacesRemoval: poll the live listing every 50 ms until none of
the names remain or 10 seconds elapse. -/
def waitForInterfacesRemoval (listings : Nat → Option String) (interfaces : List String) :
    Bool × List Report :=
  waitLoop listings interfaces 0 (waitTimeoutMs / waitIntervalMs)

/-- Sequential destroy loop of the reset workflows: stops at the first failed
destroy. Returns overall success, the commands issued, and the names
destroyed so far (accumulated only on success, as in the source). -/
def destroySeq (ex : List String → Bool) : List String → Bool × List (List String) × List String
  | [] => (true, [], [])
  | i :: rest =>
    if ex [i, "destroy"] then
      let r := destroySeq ex rest
      (r.1, [i, "destroy"] :: r.2.1, i :: r.2.2)
    else (false, [[i, "destroy"]], [])

/-- Shared tail of the reset workflows: destroy the named interfaces in
order, then (when any were destroyed) wait for their disappearance; a failed
destroy or a timed-out wait yields failure with an error report, otherwise
success. -/
def destroyAndWait (ex : List String → Bool) (listings : Nat → Option String)
    (names : List String) : Bool × List (List String) × List Report :=
  match destroySeq ex names with
  | (true, tr, destroyed) =>
    if destroyed.isEmpty then (true, tr, [⟨.info, "reset complete"⟩])
    else
      match waitForInterfacesRemoval listings destroyed with
      | (true, evs) => (true, tr, evs ++ [⟨.info, "reset complete"⟩])
      | (false, evs) => (false, tr, evs ++ [⟨.error, "Failed to confirm interfaces removal"⟩])
  | (false, tr, _) => (false, tr, [⟨.error, "Failed to remove interface during reset"⟩])

/-- The interface names targeted by resetVLANs: the observed VLAN interfaces
directly under the managed physical interface. -/
def resetVlanNames (physicalIface : String) (currentVLANs : List (String × String)) :
    List String :=
  (currentVLANs.map Prod.fst).filter (fun v => strBegins v (physicalIface ++ "."))

/-- The interface names targeted by resetAllInterfaces: every observed gif,
VLAN and bridge interface. -/
def resetAllNames (currentGifs : List (String × InterfaceConfig))
    (currentVLANs : List (String × String))
    (currentBridges : List (String × BridgeConfig)) : List String :=
  currentGifs.map Prod.fst ++ currentVLANs.map Prod.fst ++ currentBridges.map Prod.fst

/-- resetVLANs: destroy every observed VLAN interface directly under the
managed physical interface and wait for the names to disappear. -/
def resetVLANs (ex : List String → Bool) (listings : Nat → Option String)
    (physicalIface : String) (currentVLANs : List (String × String)) :
    Bool × List (List String) × List Report :=
  destroyAndWait ex listings (resetVlanNames physicalIface currentVLANs)

/-- resetAllInterfaces: destroy every observed gif, VLAN and bridge interface
and wait for the names to disappear. -/
def resetAllInterfaces (ex : List String → Bool) (listings : Nat → Option String)
    (currentGifs : List (String × InterfaceConfig)) (currentVLANs : List (String × String))
    (currentBridges : List (String × BridgeConfig)) :
    Bool × List (List String) × List Report :=
  destroyAndWait ex listings (resetAllNames currentGifs currentVLANs currentBridges)

/-- Pipeline phases of the signal handlers in main, with the forceReset flag
the apply phase is invoked with. -/
inductive Phase
  | getInterfaces
  | teardown
  | fetch
  | diff
  | apply (forceReset : Bool)
deriving DecidableEq, Repr

/-- Follow-up of a reset trigger in main: only a successful teardown is
followed by a fetch, and only a successful fetch by a re-read of the
interfaces, a diff and an apply with forceReset false. -/
def resetFollowUp (resetOk fetchOk : Bool) : List Phase :=
  if resetOk then
    .fetch :: (if fetchOk then [.getInterfaces, .diff, .apply false] else [])
  else []

/-- The SIGUSR1 (reset VLANs) handler of main as its phase trace. -/
def sigusr1Handler (ex : List String → Bool) (listings : Nat → Option String)
    (phys : String) (currentVLANs : List (String × String)) (fetchOk : Bool) : List Phase :=
  .getInterfaces :: .teardown ::
    resetFollowUp (resetVLANs ex listings phys currentVLANs).1 fetchOk

/-- The SIGUSR2 (reset everything) handler of main as its phase trace. -/
def sigusr2Handler (ex : List String → Bool) (listings : Nat → Option String)
    (currentGifs : List (String × InterfaceConfig)) (currentVLANs : List (String × String))
    (currentBridges : List (String × BridgeConfig)) (fetchOk : Bool) : List Phase :=
  .getInterfaces :: .teardown ::
    resetFollowUp (resetAllInterfaces ex listings currentGifs currentVLANs currentBridges).1 fetchOk

/-- Observed bridge agreement used to state the no-drift hypothesis: the
bridge derived from the spec exists and its membership matches the expected
pair up to order. -/
def bridgeObserved (currentBridges : List (String × BridgeConfig)) (phys : String)
    (c : TunnelConfig) : Bool :=
  match List.lookup (bridgeNameOf c) currentBridges with
  | some b => membersEqual b.members [gifNameOf c, vlanNameOf phys c]
  | none => false

/-- No drift: the observed gifs, VLAN interfaces and bridges are exactly the
ones the validated specs induce, with the attributes the diff engine derives
from the specs. -/
def observedMatches (st : Settings) (configs : List TunnelConfig)
    (currentGifs : List (String × InterfaceConfig)) (currentVLANs : List (String × String))
    (currentBridges : List (String × BridgeConfig)) : Prop :=
  (∀ c ∈ configs, List.lookup (gifNameOf c) currentGifs = some (desiredGif c)) ∧
  (∀ kv ∈ currentGifs, ∃ c ∈ configs, kv.1 = gifNameOf c) ∧
  (∀ c ∈ configs, List.lookup (vlanNameOf st.physicalIface c) currentVLANs = some c.vlanID) ∧
  (∀ kv ∈ currentVLANs, ∃ c ∈ configs, kv.1 = vlanNameOf st.physicalIface c) ∧
  (∀ c ∈ configs, bridgeObserved currentBridges st.physicalIface c = true) ∧
  (∀ kv ∈ currentBridges, ∃ c ∈ configs, kv.1 = bridgeNameOf c)

instance observedMatchesDecidable (st : Settings) (configs : List TunnelConfig)
    (currentGifs : List (String × InterfaceConfig)) (currentVLANs : List (String × String))
    (currentBridges : List (String × BridgeConfig)) :
    Decidable (observedMatches st configs currentGifs currentVLANs currentBridges) := by
  unfold observedMatches
  infer_instance

/-! Helper lemmas about the association-list map representation. -/

theorem strAppend_left_cancel {s t u : String} (h : s ++ t = s ++ u) : t = u := by
  have hd := congrArg String.data h
  simp [String.data_append] at hd
  exact String.ext hd

theorem lookup_eq_none_iff {α : Type} (m : List (String × α)) (k : String) :
    List.lookup k m = none ↔ k ∉ m.map Prod.fst := by
  induction m with
  | nil => simp [List.lookup]
  | cons kv rest ih =>
    obtain ⟨a, v⟩ := kv
    by_cases h : k = a
    · subst h
      simp [List.lookup]
    · have hb : (k == a) = false := beq_false_of_ne h
      simp [List.lookup, hb, ih, h]

theorem mem_of_lookup_eq_some {α : Type} {m : List (String × α)} {k : String} {v : α}
    (h : List.lookup k m = some v) : (k, v) ∈ m := by
  induction m with
  | nil => simp [List.lookup] at h
  | cons kv rest ih =>
    obtain ⟨a, w⟩ := kv
    by_cases hk : k = a
    · subst hk
      simp [List.lookup] at h
      simp [h]
    · have hb : (k == a) = false := beq_false_of_ne hk
      simp [List.lookup, hb] at h
      exact List.mem_cons_of_mem _ (ih h)

theorem mapInsert_of_fresh {α : Type} {m : List (String × α)} {k : String} (v : α)
    (h : k ∉ m.map Prod.fst) : mapInsert m k v = m ++ [(k, v)] := by
  simp [mapInsert, h]

theorem foldl_mapInsert {α : Type} (f : TunnelConfig → String) (g : TunnelConfig → α)
    (l : List TunnelConfig) :
    ∀ (m : List (String × α)), (l.map f).Nodup → (∀ c ∈ l, f c ∉ m.map Prod.fst) →
      l.foldl (fun acc c => mapInsert acc (f c) (g c)) m = m ++ l.map (fun c => (f c, g c)) := by
  induction l with
  | nil => intro m _ _; simp
  | cons c rest ih =>
    intro m hnd hfresh
    simp only [List.map_cons, List.nodup_cons] at hnd
    simp only [List.foldl_cons]
    rw [mapInsert_of_fresh (g c) (hfresh c (List.mem_cons_self c rest))]
    rw [ih (m ++ [(f c, g c)]) hnd.2 ?_]
    · simp
    · intro x hx
      simp only [List.map_append, List.mem_append, List.map_cons, List.map_nil]
      rintro (hmem | hone)
      · exact hfresh x (List.mem_cons_of_mem _ hx) hmem
      · simp at hone
        exact hnd.1 (hone ▸ List.mem_map_of_mem f hx)

theorem lookup_map_pair {α : Type} (f : TunnelConfig → String) (g : TunnelConfig → α)
    {l : List TunnelConfig} (hnd : (l.map f).Nodup) {c : TunnelConfig} (hc : c ∈ l) :
    List.lookup (f c) (l.map fun x => (f x, g x)) = some (g c) := by
  induction l with
  | nil => cases hc
  | cons a rest ih =>
    simp only [List.map_cons, List.nodup_cons] at hnd
    rcases List.mem_cons.mp hc with h | h
    · subst h
      simp [List.lookup]
    · have hne : f c ≠ f a := by
        intro heq
        exact hnd.1 (heq ▸ List.mem_map_of_mem f h)
      have hb : (f c == f a) = false := beq_false_of_ne hne
      simp only [List.map_cons, List.lookup, hb]
      exact ih hnd.2 h

theorem keys_map_pair {α : Type} (f : TunnelConfig → String) (g : TunnelConfig → α)
    (l : List TunnelConfig) :
    (l.map fun x => (f x, g x)).map Prod.fst = l.map f := by
  simp [List.map_map]

theorem mem_keys_filter_pair {α : Type} (f : TunnelConfig → String) (g : TunnelConfig → α)
    {l : List TunnelConfig} (hnd : (l.map f).Nodup) {c : TunnelConfig} (hc : c ∈ l)
    (p : String × α → Bool) :
    f c ∈ ((l.map fun x => (f x, g x)).filter p).map Prod.fst ↔ p (f c, g c) = true := by
  constructor
  · intro h
    obtain ⟨kv, hkv, hfst⟩ := List.mem_map.mp h
    obtain ⟨hmem, hp⟩ := List.mem_filter.mp hkv
    obtain ⟨x, hx, hxkv⟩ := List.mem_map.mp hmem
    have hfx : f x = f c := by
      rw [← hfst, ← hxkv]
    have hxc : x = c := List.inj_on_of_nodup_map hnd hx hc hfx
    subst hxc
    rw [← hxkv] at hp
    exact hp
  · intro hp
    exact List.mem_map.mpr
      ⟨(f c, g c), List.mem_filter.mpr ⟨List.mem_map.mpr ⟨c, hc, rfl⟩, hp⟩, rfl⟩

theorem gifUpToDate_self (x : InterfaceConfig) : gifUpToDate x x = true := by
  simp [gifUpToDate]

theorem gifNames_nodup (configs : List TunnelConfig)
    (hnd : (configs.map (fun c => c.tunnelID)).Nodup) : (configs.map gifNameOf).Nodup := by
  have hinj : Function.Injective (fun t : String => "gif" ++ t) :=
    fun a b h => strAppend_left_cancel h
  have heq : configs.map gifNameOf =
      (configs.map (fun c => c.tunnelID)).map (fun t => "gif" ++ t) := by
    simp [List.map_map, gifNameOf]
  rw [heq]
  exact List.Nodup.map hinj hnd

theorem bridgeNames_nodup (configs : List TunnelConfig)
    (hnd : (configs.map (fun c => c.tunnelID)).Nodup) : (configs.map bridgeNameOf).Nodup := by
  have hinj : Function.Injective (fun t : String => "bridge" ++ t) :=
    fun a b h => strAppend_left_cancel h
  have heq : configs.map bridgeNameOf =
      (configs.map (fun c => c.tunnelID)).map (fun t => "bridge" ++ t) := by
    simp [List.map_map, bridgeNameOf]
  rw [heq]
  exact List.Nodup.map hinj hnd

theorem jsonGifs_eq (configs : List TunnelConfig) (hnd : (configs.map gifNameOf).Nodup) :
    configs.foldl (fun m c => mapInsert m (gifNameOf c) (desiredGif c)) [] =
      configs.map fun c => (gifNameOf c, desiredGif c) := by
  have h := foldl_mapInsert gifNameOf desiredGif configs [] hnd (by intro c _; simp)
  simpa using h

theorem jsonBridges_eq (phys : String) (configs : List TunnelConfig)
    (hnd : (configs.map bridgeNameOf).Nodup) :
    configs.foldl (fun m c => mapInsert m (bridgeNameOf c) (desiredBridge phys c)) [] =
      configs.map fun c => (bridgeNameOf c, desiredBridge phys c) := by
  have h := foldl_mapInsert bridgeNameOf (desiredBridge phys) configs [] hnd (by intro c _; simp)
  simpa using h

theorem calculateDiff_no_drift (st : Settings) (configs : List TunnelConfig)
    (currentGifs : List (String × InterfaceConfig)) (currentVLANs : List (String × String))
    (currentBridges : List (String × BridgeConfig))
    (hnd : (configs.map (fun c => c.tunnelID)).Nodup)
    (hm : observedMatches st configs currentGifs currentVLANs currentBridges) :
    calculateDiff currentGifs currentBridges configs st.physicalIface =
      { gifsToAdd := [], gifsToModify := [], gifsToRemove := [],
        bridgesToAdd := [], bridgesToRemove := [] } := by
  obtain ⟨hg1, hg2, _, _, hb1, hb2⟩ := hm
  have hgnd : (configs.map gifNameOf).Nodup := gifNames_nodup configs hnd
  have hbnd : (configs.map bridgeNameOf).Nodup := bridgeNames_nodup configs hnd
  simp only [calculateDiff]
  rw [jsonGifs_eq configs hgnd, jsonBridges_eq st.physicalIface configs hbnd]
  simp only [DiffResult.mk.injEq]
  refine ⟨?_, ?_, ?_, ?_, ?_⟩
  · rw [List.filter_eq_nil_iff]
    intro kv hkv
    obtain ⟨c, hc, rfl⟩ := List.mem_map.mp hkv
    simp [hg1 c hc]
  · rw [List.filter_eq_nil_iff]
    intro kv hkv
    obtain ⟨c, hc, rfl⟩ := List.mem_map.mp hkv
    simp [hg1 c hc, gifUpToDate_self]
  · rw [List.filter_eq_nil_iff]
    intro kv hkv
    obtain ⟨c, hc, hfst⟩ := hg2 kv hkv
    have hl := lookup_map_pair gifNameOf desiredGif hgnd hc
    simp [hfst, hl]
  · rw [List.filter_eq_nil_iff]
    intro kv hkv
    obtain ⟨c, hc, rfl⟩ := List.mem_map.mp hkv
    have hb := hb1 c hc
    unfold bridgeObserved at hb
    cases hlb : List.lookup (bridgeNameOf c) currentBridges with
    | none => rw [hlb] at hb; simp at hb
    | some b =>
      rw [hlb] at hb
      simp at hb
      simp [hlb, desiredBridge, hb]
  · rw [List.filter_eq_nil_iff]
    intro kv hkv
    obtain ⟨c, hc, hfst⟩ := hb2 kv hkv
    have hl := lookup_map_pair bridgeNameOf (desiredBridge st.physicalIface) hbnd hc
    simp [hfst, hl]

theorem applyStep_skip (st : Settings) (configs : List TunnelConfig)
    (currentGifs : List (String × InterfaceConfig)) (currentVLANs : List (String × String))
    (currentBridges : List (String × BridgeConfig)) (ex : List String → Bool)
    (hfam : ∀ c ∈ configs, strContains c.dstAddr ":" = true → strContains c.srcAddr ":" = true)
    (hm : observedMatches st configs currentGifs currentVLANs currentBridges)
    {c : TunnelConfig} (hc : c ∈ configs) :
    applyStep ex st currentGifs currentVLANs currentBridges false c = [] := by
  obtain ⟨hg1, _, hv1, _, hb1, _⟩ := hm
  have hor : (strContains c.srcAddr ":" || strContains c.dstAddr ":") =
      strContains c.srcAddr ":" := by
    cases hsrc : strContains c.srcAddr ":" with
    | true => simp
    | false =>
      cases hdst : strContains c.dstAddr ":" with
      | true =>
        have := hfam c hc hdst
        rw [hsrc] at this
        cases this
      | false => simp
  have hgif : gifPhase ex currentGifs false c = ([], false) := by
    unfold gifPhase
    rw [hg1 c hc]
    simp [gifUpdate, desiredGif, hor]
  have hvlan : vlanPhase ex currentVLANs st.physicalIface false c = ([], false) := by
    simp [vlanPhase, hv1 c hc]
  have hbr : bridgePhase ex currentBridges st.physicalIface false c = [] := by
    have hb := hb1 c hc
    unfold bridgeObserved at hb
    cases hlb : List.lookup (bridgeNameOf c) currentBridges with
    | none => rw [hlb] at hb; simp at hb
    | some b =>
      rw [hlb] at hb
      simp at hb
      simp [bridgePhase, hlb, hb]
  unfold applyStep
  rw [hgif, hvlan, hbr]
  simp

/-! Concrete fixtures used by the closed counterexample and witness theorems. -/

/-- Executor oracle for which every command succeeds. -/
def exTrue : List String → Bool := fun _ => true

/-- Settings fixture: physical interface em0, no source-address defaults. -/
def stEm0 : Settings := ⟨"em0", "", ""⟩

/-- A validated spec with an IPv4 source and an IPv6 destination literal. -/
def cfgMixed : TunnelConfig := ⟨"1", "10.0.0.1", "::1", "", "100", "", ""⟩

/-- Observed gifs exactly matching cfgMixed as the diff engine derives it. -/
def gifsMixed : List (String × InterfaceConfig) := [("gif1", desiredGif cfgMixed)]

/-- Observed VLAN interfaces exactly matching cfgMixed under em0. -/
def vlansMixed : List (String × String) := [("em0.100", "100")]

/-- Observed bridges exactly matching cfgMixed. -/
def bridgesMixed : List (String × BridgeConfig) :=
  [("bridge1", { members := ["gif1", "em0.100"], tunnelID := "1" })]

/-- A validated all-IPv4 spec. -/
def cfgV4 : TunnelConfig := ⟨"1", "10.0.0.1", "192.0.2.1", "", "100", "", ""⟩

/-- Observed gifs exactly matching cfgV4. -/
def gifsV4 : List (String × InterfaceConfig) := [("gif1", desiredGif cfgV4)]

/-- Observed VLAN interfaces exactly matching cfgV4 under em0. -/
def vlansV4 : List (String × String) := [("em0.100", "100")]

/-- Observed bridges matching cfgV4 with the members in reversed order. -/
def bridgesV4 : List (String × BridgeConfig) :=
  [("bridge1", { members := ["em0.100", "gif1"], tunnelID := "1" })]

/-- Claim C1 (amended): for every validated spec list whose entries have a
consistent address family (an IPv6 destination only together with an IPv6
source), a cycle that observes no drift classifies every tunnel and bridge as
unchanged and the apply step issues zero mutating commands. The restriction
is forced because applyConfig compares the observed IPv6 flag against the
source address only, while calculateDiff derives it from source or
destination. -/
theorem claim1_amended
    (st : Settings) (configs : List TunnelConfig)
    (currentGifs : List (String × InterfaceConfig)) (currentVLANs : List (String × String))
    (currentBridges : List (String × BridgeConfig)) (ex : List String → Bool)
    (hnd : (configs.map (fun c => c.tunnelID)).Nodup)
    (hfam : ∀ c ∈ configs, strContains c.dstAddr ":" = true → strContains c.srcAddr ":" = true)
    (hm : observedMatches st configs currentGifs currentVLANs currentBridges) :
    calculateDiff currentGifs currentBridges configs st.physicalIface =
      { gifsToAdd := [], gifsToModify := [], gifsToRemove := [],
        bridgesToAdd := [], bridgesToRemove := [] } ∧
    applyConfig (calculateDiff currentGifs currentBridges configs st.physicalIface)
      configs st currentGifs currentVLANs currentBridges false ex = [] := by
  have hd := calculateDiff_no_drift st configs currentGifs currentVLANs currentBridges hnd hm
  refine ⟨hd, ?_⟩
  rw [hd]
  unfold applyConfig
  have hflat :
      (configs.map (applyStep ex st currentGifs currentVLANs currentBridges false)).flatten
        = [] := by
    rw [List.flatten_eq_nil_iff]
    intro l hl
    obtain ⟨c, hc, rfl⟩ := List.mem_map.mp hl
    exact applyStep_skip st configs currentGifs currentVLANs currentBridges ex hfam hm hc
  have hclean : vlanCleanup currentVLANs configs st.physicalIface = [] := by
    unfold vlanCleanup
    rw [List.filter_eq_nil_iff]
    intro v hv
    obtain ⟨kv, hkv, hvv⟩ := List.mem_map.mp hv
    obtain ⟨c, hc, hce⟩ := hm.2.2.2.1 kv hkv
    have hany : configs.any (fun c => vlanNameOf st.physicalIface c == v) = true := by
      rw [List.any_eq_true]
      refine ⟨c, hc, ?_⟩
      rw [← hvv, hce]
      simp
    simp [hany]
  rw [hflat, hclean]
  simp [destroyCmds]

/-- Claim C1 counterexample: a validated spec with an IPv4 source and an IPv6
destination literal, observed exactly as the diff engine derives it (no
drift): the diff classifies everything as unchanged, yet the apply step still
issues mutating commands. -/
theorem claim1_counterexample :
    observedMatches stEm0 [cfgMixed] gifsMixed vlansMixed bridgesMixed ∧
    calculateDiff gifsMixed bridgesMixed [cfgMixed] "em0" =
      { gifsToAdd := [], gifsToModify := [], gifsToRemove := [],
        bridgesToAdd := [], bridgesToRemove := [] } ∧
    applyConfig (calculateDiff gifsMixed bridgesMixed [cfgMixed] "em0") [cfgMixed] stEm0
      gifsMixed vlansMixed bridgesMixed false exTrue ≠ [] := by
  refine ⟨by decide, by decide, by decide⟩

/-- Claim C1 witness: the amended theorem applied to a concrete consistent
all-IPv4 spec in its matching observed state. -/
theorem claim1_witness :
    calculateDiff gifsV4 bridgesV4 [cfgV4] stEm0.physicalIface =
      { gifsToAdd := [], gifsToModify := [], gifsToRemove := [],
        bridgesToAdd := [], bridgesToRemove := [] } ∧
    applyConfig (calculateDiff gifsV4 bridgesV4 [cfgV4] stEm0.physicalIface) [cfgV4] stEm0
      gifsV4 vlansV4 bridgesV4 false exTrue = [] :=
  claim1_amended stEm0 [cfgV4] gifsV4 vlansV4 bridgesV4 exTrue
    (by decide) (by decide) (by decide)

/-- A spec whose VLAN id does not collide with the foreign VLAN fixture. -/
def cfgVl : TunnelConfig := ⟨"1", "10.0.0.1", "192.0.2.1", "", "200", "", ""⟩

/-- Claim C3 counterexample: with managed physical interface em0, one
validated spec using VLAN 200, and an observed VLAN interface em1.100 that
belongs to a different physical interface, the apply engine still destroys
em1.100 in its orphan cleanup. -/
theorem claim3_counterexample :
    ["em1.100", "destroy"] ∈
      applyConfig (calculateDiff [] [] [cfgVl] "em0") [cfgVl] stEm0
        [] [("em1.100", "100")] [] false exTrue ∧
    strBegins "em1.100" (stEm0.physicalIface ++ ".") = false := by
  refine ⟨by decide, by decide⟩

/-- Claim C3 (amended): the end-of-cycle cleanup destroys exactly the
observed VLAN interfaces, of any parent interface, that no validated spec of
the cycle references as its VLAN interface name; the cleanup destroys form
the final segment of the apply trace. -/
theorem claim3_amended (st : Settings) (d : DiffResult) (configs : List TunnelConfig)
    (gifs : List (String × InterfaceConfig)) (vlans : List (String × String))
    (bridges : List (String × BridgeConfig)) (fr : Bool) (ex : List String → Bool) :
    (∃ pre, applyConfig d configs st gifs vlans bridges fr ex =
      pre ++ destroyCmds (vlanCleanup vlans configs st.physicalIface)) ∧
    (∀ v, v ∈ vlanCleanup vlans configs st.physicalIface ↔
      (v ∈ vlans.map Prod.fst ∧ ∀ c ∈ configs, vlanNameOf st.physicalIface c ≠ v)) := by
  constructor
  · exact ⟨destroyCmds (d.gifsToRemove.map Prod.fst)
      ++ destroyCmds (d.bridgesToRemove.map Prod.fst)
      ++ (configs.map (applyStep ex st gifs vlans bridges fr)).flatten, by
        unfold applyConfig
        simp [List.append_assoc]⟩
  · intro v
    unfold vlanCleanup
    simp [List.mem_filter, List.any_eq_true]

theorem membersEqual_pair {m : List String} {a b : String} (hne : a ≠ b) :
    membersEqual m [a, b] = true ↔ m = [a, b] ∨ m = [b, a] := by
  constructor
  · intro h
    simp only [membersEqual, Bool.and_eq_true, beq_iff_eq, List.all_cons, List.all_nil,
      Bool.and_true, List.elem_iff] at h
    obtain ⟨hlen, ha, hb⟩ := h
    obtain ⟨x, y, rfl⟩ := List.length_eq_two.mp hlen
    simp only [List.mem_cons, List.not_mem_nil, or_false] at ha hb
    rcases ha with rfl | rfl
    · rcases hb with rfl | rfl
      · exact absurd rfl hne
      · exact Or.inl rfl
    · rcases hb with rfl | rfl
      · exact Or.inr rfl
      · exact absurd rfl hne
  · rintro (rfl | rfl) <;> simp [membersEqual]

/-- Observed gif fixture carrying a scrape-trimmed description. -/
def curProd : InterfaceConfig := ⟨"10.0.0.1", "192.0.2.9", "", false, "1", "prod"⟩

/-- Desired spec whose description differs from curProd only by a trailing
space. -/
def cfgProd : TunnelConfig := ⟨"1", "10.0.0.1", "192.0.2.9", "", "100", "", "prod "⟩

/-- Claim C9 counterexample: an observed tunnel and a desired spec agreeing
on source, destination and IP-version flag, whose descriptions are equal
after trimming but differ by a trailing space, is classified as modified,
not unchanged: the diff compares the desired description verbatim. -/
theorem claim9_counterexample :
    trimSpace cfgProd.description = trimSpace curProd.description ∧
    curProd.src = cfgProd.srcAddr ∧ curProd.dst = cfgProd.dstAddr ∧
    curProd.isIPv6 = (strContains cfgProd.srcAddr ":" || strContains cfgProd.dstAddr ":") ∧
    "gif1" ∈ ((calculateDiff [("gif1", curProd)] [] [cfgProd] "em0").gifsToModify).map Prod.fst
    := by
  refine ⟨by decide, by decide, by decide, by decide, by decide⟩

/-- Claim C9 (amended): a tunnel present in both observed and desired state
is classified unchanged exactly when source address, destination address,
IP-version flag and description are equal, the description being compared
verbatim (the observed side was already trimmed by the scraper, so only
desired-side surrounding whitespace triggers a modify); a bridge present in
both is classified unchanged exactly when its observed membership equals the
desired two-element set, tunnel and VLAN interface name, disregarding order. -/
theorem claim9_amended (currentGifs : List (String × InterfaceConfig))
    (currentBridges : List (String × BridgeConfig)) (configs : List TunnelConfig)
    (phys : String) (d : DiffResult)
    (hd : d = calculateDiff currentGifs currentBridges configs phys)
    (hnd : (configs.map (fun c => c.tunnelID)).Nodup)
    {c : TunnelConfig} (hc : c ∈ configs)
    {cur : InterfaceConfig} (hcur : List.lookup (gifNameOf c) currentGifs = some cur)
    {b : BridgeConfig} (hbr : List.lookup (bridgeNameOf c) currentBridges = some b) :
    (gifNameOf c ∉ d.gifsToAdd.map Prod.fst) ∧
    (gifNameOf c ∉ d.gifsToRemove.map Prod.fst) ∧
    (gifNameOf c ∈ d.gifsToModify.map Prod.fst ↔
      ¬(cur.src = c.srcAddr ∧ cur.dst = c.dstAddr ∧
        cur.isIPv6 = (strContains c.srcAddr ":" || strContains c.dstAddr ":") ∧
        cur.description = c.description)) ∧
    (bridgeNameOf c ∉ d.bridgesToRemove.map Prod.fst) ∧
    (bridgeNameOf c ∈ d.bridgesToAdd.map Prod.fst ↔
      membersEqual b.members [gifNameOf c, vlanNameOf phys c] = false) ∧
    (gifNameOf c ≠ vlanNameOf phys c →
      (membersEqual b.members [gifNameOf c, vlanNameOf phys c] = true ↔
        b.members = [gifNameOf c, vlanNameOf phys c] ∨
        b.members = [vlanNameOf phys c, gifNameOf c])) := by
  subst hd
  have hgnd : (configs.map gifNameOf).Nodup := gifNames_nodup configs hnd
  have hbnd : (configs.map bridgeNameOf).Nodup := bridgeNames_nodup configs hnd
  simp only [calculateDiff]
  rw [jsonGifs_eq configs hgnd, jsonBridges_eq phys configs hbnd]
  refine ⟨?_, ?_, ?_, ?_, ?_, ?_⟩
  · rw [mem_keys_filter_pair gifNameOf desiredGif hgnd hc]
    simp [hcur]
  · intro h
    obtain ⟨kv, hkv, hfst⟩ := List.mem_map.mp h
    obtain ⟨hmem, hp⟩ := List.mem_filter.mp hkv
    rw [hfst] at hp
    rw [lookup_map_pair gifNameOf desiredGif hgnd hc] at hp
    simp at hp
  · rw [mem_keys_filter_pair gifNameOf desiredGif hgnd hc]
    rw [hcur]
    simp only [gifUpToDate, desiredGif, Bool.not_eq_true']
    simp [not_and_or, and_assoc]
  · intro h
    obtain ⟨kv, hkv, hfst⟩ := List.mem_map.mp h
    obtain ⟨hmem, hp⟩ := List.mem_filter.mp hkv
    rw [hfst] at hp
    rw [lookup_map_pair bridgeNameOf (desiredBridge phys) hbnd hc] at hp
    simp at hp
  · rw [mem_keys_filter_pair bridgeNameOf (desiredBridge phys) hbnd hc]
    rw [hbr]
    simp [desiredBridge]
  · intro hne
    exact membersEqual_pair hne

/-- Claim C9 witness: the amended theorem applied to a concrete observed
state matching cfgV4, with the bridge members in reversed order. -/
theorem claim9_witness :
    "gif1" ∉ ((calculateDiff gifsV4 bridgesV4 [cfgV4] "em0").gifsToAdd).map Prod.fst :=
  (@claim9_amended gifsV4 bridgesV4 [cfgV4] "em0"
    (calculateDiff gifsV4 bridgesV4 [cfgV4] "em0") rfl (by decide)
    cfgV4 (List.mem_cons_self cfgV4 []) (desiredGif cfgV4) (by decide)
    ⟨["em0.100", "gif1"], "1"⟩ (by decide)).1

/-- Claim C2 counterexample: on the success path of both reset triggers the
follow-up apply runs with forceReset false, never true; and after a teardown
whose removal wait times out (the destroyed gif name keeps appearing in every
polled listing), the handler performs no fetch, diff or apply at all. -/
theorem claim2_counterexample :
    Phase.apply true ∉ sigusr1Handler exTrue (fun _ => some "") "em0" [("em0.100", "100")] true ∧
    Phase.apply true ∉
      sigusr2Handler exTrue (fun _ => some "") [("gif1", desiredGif cfgV4)] [] [] true ∧
    sigusr2Handler exTrue (fun _ => some "gif1") [("gif1", desiredGif cfgV4)] [] [] true =
      [Phase.getInterfaces, Phase.teardown] := by
  refine ⟨by decide, by decide, by decide⟩

/-- Claim C2 (amended): for both reset triggers, a fresh fetch runs exactly
when the teardown (including its bounded removal wait) succeeded, the diff
and apply follow exactly when that fetch also succeeded, and every apply the
handlers ever invoke has forceReset set to false; after a failed or timed-out
teardown the handler does nothing further until the next periodic cycle. -/
theorem claim2_amended (ex : List String → Bool) (listings : Nat → Option String)
    (phys : String) (gifs : List (String × InterfaceConfig))
    (vlans : List (String × String)) (bridges : List (String × BridgeConfig))
    (fetchOk : Bool) :
    (∀ b, Phase.apply b ∈ sigusr1Handler ex listings phys vlans fetchOk → b = false) ∧
    (∀ b, Phase.apply b ∈ sigusr2Handler ex listings gifs vlans bridges fetchOk → b = false) ∧
    (Phase.fetch ∈ sigusr1Handler ex listings phys vlans fetchOk ↔
      (resetVLANs ex listings phys vlans).1 = true) ∧
    (Phase.fetch ∈ sigusr2Handler ex listings gifs vlans bridges fetchOk ↔
      (resetAllInterfaces ex listings gifs vlans bridges).1 = true) ∧
    (Phase.apply false ∈ sigusr1Handler ex listings phys vlans fetchOk ↔
      ((resetVLANs ex listings phys vlans).1 = true ∧ fetchOk = true)) ∧
    (Phase.apply false ∈ sigusr2Handler ex listings gifs vlans bridges fetchOk ↔
      ((resetAllInterfaces ex listings gifs vlans bridges).1 = true ∧ fetchOk = true)) := by
  unfold sigusr1Handler sigusr2Handler resetFollowUp
  cases h1 : (resetVLANs ex listings phys vlans).1 <;>
    cases h2 : (resetAllInterfaces ex listings gifs vlans bridges).1 <;>
      cases fetchOk <;> simp_all

theorem waitLoop_success_poll (listings : Nat → Option String) (interfaces : List String) :
    ∀ (fuel t : Nat), (waitLoop listings interfaces t fuel).1 = true →
      ∃ u, t ≤ u ∧ u < t + fuel ∧ ∃ out, listings u = some out ∧
        ∀ i ∈ interfaces, strContains out i = false := by
  intro fuel
  induction fuel with
  | zero =>
    intro t h
    simp [waitLoop] at h
  | succ n ih =>
    intro t h
    unfold waitLoop at h
    cases hl : listings t with
    | none =>
      simp only [hl] at h
      obtain ⟨u, hu1, hu2, hout⟩ := ih (t + 1) h
      exact ⟨u, by omega, by omega, hout⟩
    | some out =>
      simp only [hl] at h
      by_cases hall : interfaces.all (fun i => !strContains out i) = true
      · refine ⟨t, Nat.le_refl t, by omega, out, hl, ?_⟩
        intro i hi
        have h2 := List.all_eq_true.mp hall i hi
        simpa using h2
      · rw [if_neg hall] at h
        obtain ⟨u, hu1, hu2, hout⟩ := ih (t + 1) h
        exact ⟨u, by omega, by omega, hout⟩

theorem waitLoop_reports (listings : Nat → Option String) (interfaces : List String) :
    ∀ (fuel t : Nat),
      ((waitLoop listings interfaces t fuel).1 = false →
        (⟨Level.warn, "Timeout waiting for interfaces removal"⟩ : Report) ∈
          (waitLoop listings interfaces t fuel).2) ∧
      (∀ r ∈ (waitLoop listings interfaces t fuel).2, r.level ≠ Level.error) := by
  intro fuel
  induction fuel with
  | zero =>
    intro t
    constructor
    · intro _
      simp [waitLoop]
    · intro r hr
      simp [waitLoop] at hr
      rw [hr]
      simp
  | succ n ih =>
    intro t
    unfold waitLoop
    cases hl : listings t with
    | none =>
      simp only [hl]
      constructor
      · intro h
        exact List.mem_cons_of_mem _ ((ih (t + 1)).1 h)
      · intro r hr
        rcases List.mem_cons.mp hr with rfl | hr2
        · simp
        · exact (ih (t + 1)).2 r hr2
    | some out =>
      simp only [hl]
      by_cases hall : interfaces.all (fun i => !strContains out i) = true
      · rw [if_pos hall]
        constructor
        · intro h
          simp at h
        · intro r hr
          simp at hr
          rw [hr]
          simp
      · rw [if_neg hall]
        exact ih (t + 1)

theorem destroySeq_all_ok (ex : List String → Bool) :
    ∀ l : List String, (∀ n ∈ l, ex [n, "destroy"] = true) →
      destroySeq ex l = (true, destroyCmds l, l) := by
  intro l
  induction l with
  | nil => intro _; rfl
  | cons i rest ih =>
    intro h
    have hi := h i (List.mem_cons_self i rest)
    have hr := ih (fun n hn => h n (List.mem_cons_of_mem _ hn))
    simp [destroySeq, hi, hr, destroyCmds]

theorem destroyAndWait_spec (ex : List String → Bool) (listings : Nat → Option String)
    (names : List String) (hex : ∀ n ∈ names, ex [n, "destroy"] = true) :
    ((destroyAndWait ex listings names).1 = true ↔
      (names = [] ∨ (waitForInterfacesRemoval listings names).1 = true)) ∧
    ((waitForInterfacesRemoval listings names).1 = false → names ≠ [] →
      (destroyAndWait ex listings names).2.2 =
        (waitForInterfacesRemoval listings names).2 ++
          [⟨Level.error, "Failed to confirm interfaces removal"⟩]) := by
  have hds := destroySeq_all_ok ex names hex
  unfold destroyAndWait
  simp only [hds]
  cases names with
  | nil => simp
  | cons a rest =>
    simp only [List.isEmpty_cons]
    cases hw : waitForInterfacesRemoval listings (a :: rest) with
    | mk ok evs =>
      cases ok with
      | true => simp [hw]
      | false => simp [hw]

/-- Claim C6: a removal wait declares success only at a poll whose live
listing contains none of the destroyed names, polling every 50 ms with a 10 s
overall budget; a run-out of the budget produces a warning-level timeout
report and never an error-level one from the wait itself; and both reset
workflows, once all their destroy commands succeed, declare success exactly
when the destroyed name set is empty or the wait succeeded, the timeout
warning being part of the workflow's reports otherwise. -/
theorem claim6 (ex : List String → Bool) (listings : Nat → Option String)
    (interfaces : List String) (gifs : List (String × InterfaceConfig))
    (vlans : List (String × String)) (bridges : List (String × BridgeConfig))
    (phys : String)
    (hex : ∀ n : String, ex [n, "destroy"] = true) :
    (waitIntervalMs = 50 ∧ waitTimeoutMs = 10000) ∧
    ((waitForInterfacesRemoval listings interfaces).1 = true →
      ∃ t, t < waitTimeoutMs / waitIntervalMs ∧ ∃ out, listings t = some out ∧
        ∀ i ∈ interfaces, strContains out i = false) ∧
    ((waitForInterfacesRemoval listings interfaces).1 = false →
      (⟨Level.warn, "Timeout waiting for interfaces removal"⟩ : Report) ∈
        (waitForInterfacesRemoval listings interfaces).2) ∧
    (∀ r ∈ (waitForInterfacesRemoval listings interfaces).2, r.level ≠ Level.error) ∧
    ((resetAllInterfaces ex listings gifs vlans bridges).1 = true ↔
      (resetAllNames gifs vlans bridges = [] ∨
        (waitForInterfacesRemoval listings (resetAllNames gifs vlans bridges)).1 = true)) ∧
    ((waitForInterfacesRemoval listings (resetAllNames gifs vlans bridges)).1 = false →
      resetAllNames gifs vlans bridges ≠ [] →
      (⟨Level.warn, "Timeout waiting for interfaces removal"⟩ : Report) ∈
        (resetAllInterfaces ex listings gifs vlans bridges).2.2) ∧
    ((resetVLANs ex listings phys vlans).1 = true ↔
      (resetVlanNames phys vlans = [] ∨
        (waitForInterfacesRemoval listings (resetVlanNames phys vlans)).1 = true)) ∧
    ((waitForInterfacesRemoval listings (resetVlanNames phys vlans)).1 = false →
      resetVlanNames phys vlans ≠ [] →
      (⟨Level.warn, "Timeout waiting for interfaces removal"⟩ : Report) ∈
        (resetVLANs ex listings phys vlans).2.2) := by
  have hallspec := destroyAndWait_spec ex listings (resetAllNames gifs vlans bridges)
    (fun n _ => hex n)
  have hvlspec := destroyAndWait_spec ex listings (resetVlanNames phys vlans)
    (fun n _ => hex n)
  refine ⟨⟨rfl, rfl⟩, ?_, ?_, ?_, ?_, ?_, ?_, ?_⟩
  · intro h
    obtain ⟨u, _, hu2, hout⟩ := waitLoop_success_poll listings interfaces
      (waitTimeoutMs / waitIntervalMs) 0 h
    exact ⟨u, by omega, hout⟩
  · exact (waitLoop_reports listings interfaces (waitTimeoutMs / waitIntervalMs) 0).1
  · exact (waitLoop_reports listings interfaces (waitTimeoutMs / waitIntervalMs) 0).2
  · exact hallspec.1
  · intro hw hne
    have heq := hallspec.2 hw hne
    unfold resetAllInterfaces
    rw [heq]
    exact List.mem_append_left _
      ((waitLoop_reports listings (resetAllNames gifs vlans bridges)
        (waitTimeoutMs / waitIntervalMs) 0).1 hw)
  · exact hvlspec.1
  · intro hw hne
    have heq := hvlspec.2 hw hne
    unfold resetVLANs
    rw [heq]
    exact List.mem_append_left _
      ((waitLoop_reports listings (resetVlanNames phys vlans)
        (waitTimeoutMs / waitIntervalMs) 0).1 hw)

/-- Claim C6 witness: the theorem applied to a concrete run in which every
destroy succeeds and the first polled listing is already clean. -/
theorem claim6_witness :
    ∃ t, t < waitTimeoutMs / waitIntervalMs ∧ ∃ out, (fun _ : Nat => some "") t = some out ∧
      ∀ i ∈ ["gif1"], strContains out i = false :=
  (claim6 exTrue (fun _ => some "") ["gif1"] [] [] [] "em0" (fun _ => rfl)).2.1 (by decide)

theorem runCmdLoop_le (attempts : Nat → Attempt) :
    ∀ (fuel i : Nat), (runCmdLoop attempts i fuel).2.1 ≤ fuel := by
  intro fuel
  induction fuel with
  | zero => intro i; simp [runCmdLoop]
  | succ n ih =>
    intro i
    unfold runCmdLoop
    by_cases h1 : (attempts i).ok = true
    · simp [h1]
    · by_cases h2 : strContains (attempts i).out "already exists" = true
      · simp [h1, h2]
      · rw [if_neg h1, if_neg h2]
        have := ih (i + 1)
        show (runCmdLoop attempts (i + 1) n).2.1 + 1 ≤ n + 1
        omega

theorem runCmdLoop_sleeps (attempts : Nat → Attempt) :
    ∀ (fuel i : Nat), 0 < fuel →
      (runCmdLoop attempts i fuel).2.2 + 1 = (runCmdLoop attempts i fuel).2.1 := by
  intro fuel
  induction fuel with
  | zero => intro i h; omega
  | succ n ih =>
    intro i _
    unfold runCmdLoop
    by_cases h1 : (attempts i).ok = true
    · simp [h1]
    · by_cases h2 : strContains (attempts i).out "already exists" = true
      · simp [h1, h2]
      · simp only [if_neg h1, if_neg h2]
        cases n with
        | zero => simp [runCmdLoop]
        | succ m =>
          have := ih (i + 1) (Nat.succ_pos m)
          simp only [gt_iff_lt, Nat.succ_pos, if_pos]
          omega

theorem runCmdLoop_success_iff (attempts : Nat → Attempt) :
    ∀ (fuel i : Nat), (runCmdLoop attempts i fuel).1 = true ↔
      ∃ j, j < fuel ∧ ((attempts (i + j)).ok = true ∨
        strContains (attempts (i + j)).out "already exists" = true) := by
  intro fuel
  induction fuel with
  | zero =>
    intro i
    simp [runCmdLoop]
  | succ n ih =>
    intro i
    constructor
    · intro h
      unfold runCmdLoop at h
      by_cases h1 : (attempts i).ok = true
      · exact ⟨0, Nat.succ_pos n, Or.inl (by rw [Nat.add_zero]; exact h1)⟩
      · by_cases h2 : strContains (attempts i).out "already exists" = true
        · exact ⟨0, Nat.succ_pos n, Or.inr (by rw [Nat.add_zero]; exact h2)⟩
        · rw [if_neg h1, if_neg h2] at h
          obtain ⟨j, hj, hP⟩ := (ih (i + 1)).mp h
          refine ⟨j + 1, by omega, ?_⟩
          have harith : i + (j + 1) = (i + 1) + j := by omega
          rw [harith]
          exact hP
    · rintro ⟨j, hj, hP⟩
      unfold runCmdLoop
      by_cases h1 : (attempts i).ok = true
      · rw [if_pos h1]
      · by_cases h2 : strContains (attempts i).out "already exists" = true
        · rw [if_neg h1, if_pos h2]
        · rw [if_neg h1, if_neg h2]
          show (runCmdLoop attempts (i + 1) n).1 = true
          apply (ih (i + 1)).mpr
          cases j with
          | zero =>
            rw [Nat.add_zero] at hP
            rcases hP with hP | hP
            · exact absurd hP h1
            · exact absurd hP h2
          | succ k =>
            refine ⟨k, by omega, ?_⟩
            have harith : (i + 1) + k = i + (k + 1) := by omega
            rw [harith]
            exact hP

theorem applyConfig_step_decomp (d : DiffResult) (st : Settings)
    (gifs : List (String × InterfaceConfig)) (vlans : List (String × String))
    (bridges : List (String × BridgeConfig)) (fr : Bool) (ex : List String → Bool)
    {configs : List TunnelConfig} {c : TunnelConfig} (hc : c ∈ configs) :
    ∃ pre post, applyConfig d configs st gifs vlans bridges fr ex =
      pre ++ applyStep ex st gifs vlans bridges fr c ++ post := by
  obtain ⟨s, t, rfl⟩ := List.append_of_mem hc
  refine ⟨destroyCmds (d.gifsToRemove.map Prod.fst)
      ++ destroyCmds (d.bridgesToRemove.map Prod.fst)
      ++ (s.map (applyStep ex st gifs vlans bridges fr)).flatten,
    (t.map (applyStep ex st gifs vlans bridges fr)).flatten
      ++ destroyCmds (vlanCleanup vlans (s ++ c :: t) st.physicalIface), ?_⟩
  unfold applyConfig
  simp [List.flatten_append]

/-- Claim C7: the executor makes at most 3 attempts with a one-second delay
after every attempt but the last (delays are one fewer than attempts made),
succeeds exactly when some attempt within the budget exits cleanly or prints
the already-exists text, and a failure returned to applyConfig ends only the
failing spec's own reconfiguration: every spec's step is a contiguous segment
of the cycle trace independent of the other specs, and a failed create for an
absent gif leaves exactly that create as the spec's trace. -/
theorem claim7 (attempts : Nat → Attempt) (d : DiffResult) (configs : List TunnelConfig)
    (st : Settings) (gifs : List (String × InterfaceConfig))
    (vlans : List (String × String)) (bridges : List (String × BridgeConfig))
    (fr : Bool) (ex : List String → Bool) (c0 : TunnelConfig) :
    (maxAttempts = 3 ∧ retryDelaySec = 1) ∧
    (runCommand attempts).2.1 ≤ maxAttempts ∧
    ((runCommand attempts).1 = true ↔
      ∃ j, j < maxAttempts ∧ ((attempts j).ok = true ∨
        strContains (attempts j).out "already exists" = true)) ∧
    (runCommand attempts).2.2 + 1 = (runCommand attempts).2.1 ∧
    (∀ c ∈ configs, ∃ pre post, applyConfig d configs st gifs vlans bridges fr ex =
      pre ++ applyStep ex st gifs vlans bridges fr c ++ post) ∧
    (List.lookup (gifNameOf c0) gifs = none → ex [gifNameOf c0, "create"] = false →
      applyStep ex st gifs vlans bridges false c0 = [[gifNameOf c0, "create"]]) := by
  refine ⟨⟨rfl, rfl⟩, runCmdLoop_le attempts maxAttempts 0, ?_, ?_, ?_, ?_⟩
  · have h := runCmdLoop_success_iff attempts maxAttempts 0
    simpa [runCommand] using h
  · exact runCmdLoop_sleeps attempts maxAttempts 0 (by simp [maxAttempts])
  · intro c hc
    exact applyConfig_step_decomp d st gifs vlans bridges fr ex hc
  · intro hl hex
    unfold applyStep gifPhase
    rw [hl]
    simp [gifCreate, hex]

/-- Claim C7 witness: the theorem applied to a run whose attempts all fail. -/
theorem claim7_witness :
    (runCommand (fun _ => ⟨false, "boom"⟩)).2.1 ≤ maxAttempts :=
  (claim7 (fun _ => ⟨false, "boom"⟩)
    { gifsToAdd := [], gifsToModify := [], gifsToRemove := [],
      bridgesToAdd := [], bridgesToRemove := [] }
    [] stEm0 [] [] [] false exTrue cfgV4).2.1

theorem resolveSrc_ok_levels (st : Settings) (getIfAddr : String → Bool → Option String)
    (isIPv6 : Bool) (c : TunnelConfig) (src : String) (evs : List Report)
    (h : resolveSrc st getIfAddr isIPv6 c = .ok (src, evs)) :
    ∀ r ∈ evs, r.level = Level.info := by
  unfold resolveSrc at h
  split at h
  · split at h
    · split at h
      · simp only [Except.ok.injEq, Prod.mk.injEq] at h
        obtain ⟨-, he⟩ := h
        subst he
        intro r hr
        simp at hr
        rw [hr]
      · simp at h
    · split at h
      · simp only [Except.ok.injEq, Prod.mk.injEq] at h
        obtain ⟨-, he⟩ := h
        subst he
        intro r hr
        simp at hr
        rw [hr]
      · simp at h
  · simp only [Except.ok.injEq, Prod.mk.injEq] at h
    obtain ⟨-, he⟩ := h
    subst he
    intro r hr
    simp at hr

theorem resolveDst_fail_existing (currentGifs : List (String × InterfaceConfig))
    (lookupIP : String → Option (List IP)) (isIPv6 : Bool) (c : TunnelConfig)
    (h5 : c.dstAddr = "") (h6 : c.dstHostname ≠ "")
    (h7 : lookupIP c.dstHostname = none) (cur : InterfaceConfig)
    (hcur : List.lookup (gifNameOf c) currentGifs = some cur) :
    resolveDst currentGifs lookupIP isIPv6 c =
      .ok (cur.dst, [⟨Level.warn, "Failed to resolve dst_hostname, using existing dst_addr"⟩]) := by
  unfold resolveDst
  have hc1 : (c.dstAddr == "" && c.dstHostname != "") = true := by
    simp [h5, h6]
  rw [if_pos hc1]
  simp only [h7, hcur]

theorem resolveDst_fail_new (currentGifs : List (String × InterfaceConfig))
    (lookupIP : String → Option (List IP)) (isIPv6 : Bool) (c : TunnelConfig)
    (h5 : c.dstAddr = "") (h6 : c.dstHostname ≠ "")
    (h7 : lookupIP c.dstHostname = none)
    (hcur : List.lookup (gifNameOf c) currentGifs = none) :
    resolveDst currentGifs lookupIP isIPv6 c =
      .error ⟨Level.error, "Skipping tunnel due to unresolvable dst_hostname"⟩ := by
  unfold resolveDst
  have hc1 : (c.dstAddr == "" && c.dstHostname != "") = true := by
    simp [h5, h6]
  rw [if_pos hc1]
  simp only [h7, hcur]

theorem resolveEntry_reduce (st : Settings) (currentGifs : List (String × InterfaceConfig))
    (lookupIP : String → Option (List IP)) (getIfAddr : String → Bool → Option String)
    (c : TunnelConfig) (isIPv6 : Bool) (src : String) (evs1 : List Report)
    (h1 : c.tunnelID ≠ "") (h2 : c.vlanID ≠ "")
    (h3 : ipVersionFlag c = some isIPv6)
    (h4 : resolveSrc st getIfAddr isIPv6 c = .ok (src, evs1)) :
    resolveEntry st currentGifs lookupIP getIfAddr c =
      (match resolveDst currentGifs lookupIP isIPv6 c with
       | .error r => (none, evs1 ++ [r])
       | .ok (dst, evs2) => (some { c with srcAddr := src, dstAddr := dst }, evs1 ++ evs2)) := by
  unfold resolveEntry
  have hb1 : ¬((c.tunnelID == "") = true) := by simp [h1]
  have hb2 : ¬((c.vlanID == "") = true) := by simp [h2]
  rw [if_neg hb1, if_neg hb2]
  simp only [h3, h4]

/-- Claim C4: an otherwise valid entry with an empty dst_addr and a non-empty
dst_hostname whose lookup fails entirely is kept with the existing gif
interface's current destination and only warning or informational reports
when such an interface exists (and then passes the duplicate stage whenever
its keys are fresh), and is dropped with an error report when no such
interface exists. -/
theorem claim4 (st : Settings) (currentGifs : List (String × InterfaceConfig))
    (lookupIP : String → Option (List IP)) (getIfAddr : String → Bool → Option String)
    (s : FetchState) (c : TunnelConfig) (isIPv6 : Bool) (src : String) (evs1 : List Report)
    (h1 : c.tunnelID ≠ "") (h2 : c.vlanID ≠ "")
    (h3 : ipVersionFlag c = some isIPv6)
    (h4 : resolveSrc st getIfAddr isIPv6 c = .ok (src, evs1))
    (h5 : c.dstAddr = "") (h6 : c.dstHostname ≠ "")
    (h7 : lookupIP c.dstHostname = none) :
    (∀ cur, List.lookup (gifNameOf c) currentGifs = some cur →
      resolveEntry st currentGifs lookupIP getIfAddr c =
        (some { c with srcAddr := src, dstAddr := cur.dst },
         evs1 ++ [⟨Level.warn, "Failed to resolve dst_hostname, using existing dst_addr"⟩]) ∧
      (∀ r ∈ (resolveEntry st currentGifs lookupIP getIfAddr c).2, r.level ≠ Level.error) ∧
      (c.tunnelID ∉ s.tunnelIDs → cur.dst ∉ s.dstAddrs → c.vlanID ∉ s.vlanIDs →
        (fetchStep st currentGifs lookupIP getIfAddr s c).valid =
          s.valid ++ [{ c with srcAddr := src, dstAddr := cur.dst }])) ∧
    (List.lookup (gifNameOf c) currentGifs = none →
      resolveEntry st currentGifs lookupIP getIfAddr c =
        (none, evs1 ++ [⟨Level.error, "Skipping tunnel due to unresolvable dst_hostname"⟩]) ∧
      (fetchStep st currentGifs lookupIP getIfAddr s c).valid = s.valid) := by
  constructor
  · intro cur hcur
    have hd := resolveDst_fail_existing currentGifs lookupIP isIPv6 c h5 h6 h7 cur hcur
    have hre : resolveEntry st currentGifs lookupIP getIfAddr c =
        (some { c with srcAddr := src, dstAddr := cur.dst },
         evs1 ++ [⟨Level.warn, "Failed to resolve dst_hostname, using existing dst_addr"⟩]) := by
      rw [resolveEntry_reduce st currentGifs lookupIP getIfAddr c isIPv6 src evs1 h1 h2 h3 h4]
      simp only [hd]
    refine ⟨hre, ?_, ?_⟩
    · intro r hr
      rw [hre] at hr
      simp only [List.mem_append, List.mem_cons, List.not_mem_nil, or_false] at hr
      rcases hr with hr | hr
      · rw [resolveSrc_ok_levels st getIfAddr isIPv6 c src evs1 h4 r hr]
        simp
      · rw [hr]
        simp
    · intro m1 m2 m3
      have hstep : fetchStep st currentGifs lookupIP getIfAddr s c =
          fetchDedup s { c with srcAddr := src, dstAddr := cur.dst }
            (evs1 ++ [⟨Level.warn, "Failed to resolve dst_hostname, using existing dst_addr"⟩]) := by
        unfold fetchStep
        rw [hre]
      rw [hstep]
      unfold fetchDedup
      simp [m1, m2, m3]
  · intro hcur
    have hd := resolveDst_fail_new currentGifs lookupIP isIPv6 c h5 h6 h7 hcur
    have hre : resolveEntry st currentGifs lookupIP getIfAddr c =
        (none, evs1 ++ [⟨Level.error, "Skipping tunnel due to unresolvable dst_hostname"⟩]) := by
      rw [resolveEntry_reduce st currentGifs lookupIP getIfAddr c isIPv6 src evs1 h1 h2 h3 h4]
      simp only [hd]
    refine ⟨hre, ?_⟩
    have hstep : (fetchStep st currentGifs lookupIP getIfAddr s c).valid = s.valid := by
      unfold fetchStep
      rw [hre]
    exact hstep

/-- Fixture: an entry resolved only through a hostname. -/
def cfgHost : TunnelConfig := ⟨"7", "10.0.0.2", "", "peer.example", "300", "", ""⟩

/-- Fixture: the already-existing gif interface for cfgHost. -/
def curHost : InterfaceConfig := ⟨"10.0.0.2", "203.0.113.5", "", false, "7", ""⟩

/-- Claim C4 witness: the theorem applied to cfgHost with a failing lookup
oracle, in the state where gif7 already exists. -/
theorem claim4_witness :
    (fetchStep stEm0 [("gif7", curHost)] (fun _ => none) (fun _ _ => none)
      FetchState.init cfgHost).valid =
      FetchState.init.valid
        ++ [{ cfgHost with srcAddr := cfgHost.srcAddr, dstAddr := curHost.dst }] :=
  ((claim4 stEm0 [("gif7", curHost)] (fun _ => none) (fun _ _ => none)
      FetchState.init cfgHost false cfgHost.srcAddr []
      (by decide) (by decide) (by decide) rfl (by decide) (by decide) rfl).1
    curHost (by decide)).2.2 (by decide) (by decide) (by decide)

theorem resolveEntry_srcfail (st : Settings) (currentGifs : List (String × InterfaceConfig))
    (lookupIP : String → Option (List IP)) (getIfAddr : String → Bool → Option String)
    (c : TunnelConfig) (isIPv6 : Bool) (r : Report)
    (h1 : c.tunnelID ≠ "") (h2 : c.vlanID ≠ "")
    (h3 : ipVersionFlag c = some isIPv6)
    (h4 : resolveSrc st getIfAddr isIPv6 c = .error r) :
    resolveEntry st currentGifs lookupIP getIfAddr c = (none, [r]) := by
  unfold resolveEntry
  have hb1 : ¬((c.tunnelID == "") = true) := by simp [h1]
  have hb2 : ¬((c.vlanID == "") = true) := by simp [h2]
  rw [if_neg hb1, if_neg hb2]
  simp only [h3, h4]

/-- Fixture: settings with both a default source interface and a static
default source address configured. -/
def stIfaceBoth : Settings := ⟨"em0", "192.0.2.1", "eth1"⟩

/-- Fixture: settings with only a static default source address. -/
def stAddrOnly : Settings := ⟨"em0", "192.0.2.1", ""⟩

/-- Fixture: an otherwise valid entry with no source address. -/
def cfgNoSrc : TunnelConfig := ⟨"1", "", "198.51.100.9", "", "100", "", ""⟩

/-- Claim C5 counterexample: with a default interface configured whose
address query fails and a static default address also configured, the entry
is rejected: the static default is never consulted. -/
theorem claim5_counterexample :
    stIfaceBoth.defaultSrcIface ≠ "" ∧ stIfaceBoth.defaultSrcAddr ≠ "" ∧
    (resolveEntry stIfaceBoth [] (fun _ => none) (fun _ _ => none) cfgNoSrc).1 = none := by
  refine ⟨by decide, by decide, by decide⟩

/-- Claim C5 (amended): for an entry with an empty src_addr, a configured
default interface is authoritative: its live address is substituted when the
query succeeds and the entry is rejected when the query fails, without
consulting the static default; the static default address is substituted
only when no default interface is configured; and with neither configured
the entry is rejected. -/
theorem claim5_amended (st : Settings) (getIfAddr : String → Bool → Option String)
    (isIPv6 : Bool) (c : TunnelConfig) (currentGifs : List (String × InterfaceConfig))
    (lookupIP : String → Option (List IP))
    (h0 : c.srcAddr = "") (h1 : c.tunnelID ≠ "") (h2 : c.vlanID ≠ "")
    (h3 : ipVersionFlag c = some isIPv6) :
    (st.defaultSrcIface ≠ "" →
      (∀ a, getIfAddr st.defaultSrcIface isIPv6 = some a →
        resolveSrc st getIfAddr isIPv6 c =
          .ok (a, [⟨Level.info, "Using interface address as src_addr"⟩])) ∧
      (getIfAddr st.defaultSrcIface isIPv6 = none →
        (resolveEntry st currentGifs lookupIP getIfAddr c).1 = none)) ∧
    (st.defaultSrcIface = "" → st.defaultSrcAddr ≠ "" →
      resolveSrc st getIfAddr isIPv6 c =
        .ok (st.defaultSrcAddr, [⟨Level.info, "Using default src_addr"⟩])) ∧
    (st.defaultSrcIface = "" → st.defaultSrcAddr = "" →
      (resolveEntry st currentGifs lookupIP getIfAddr c).1 = none) := by
  have hb0 : (c.srcAddr == "") = true := by simp [h0]
  refine ⟨?_, ?_, ?_⟩
  · intro hif
    have hbif : (st.defaultSrcIface != "") = true := by simp [hif]
    constructor
    · intro a ha
      unfold resolveSrc
      rw [if_pos hb0, if_pos hbif]
      simp only [ha]
    · intro hnone
      have hsrc : resolveSrc st getIfAddr isIPv6 c =
          .error ⟨Level.error, "Failed to get interface address"⟩ := by
        unfold resolveSrc
        rw [if_pos hb0, if_pos hbif]
        simp only [hnone]
      rw [resolveEntry_srcfail st currentGifs lookupIP getIfAddr c isIPv6 _ h1 h2 h3 hsrc]
  · intro hif hsa
    have hbif : ¬((st.defaultSrcIface != "") = true) := by simp [hif]
    have hbsa : (st.defaultSrcAddr != "") = true := by simp [hsa]
    unfold resolveSrc
    rw [if_pos hb0, if_neg hbif, if_pos hbsa]
  · intro hif hsa
    have hbif : ¬((st.defaultSrcIface != "") = true) := by simp [hif]
    have hbsa : ¬((st.defaultSrcAddr != "") = true) := by simp [hsa]
    have hsrc : resolveSrc st getIfAddr isIPv6 c =
        .error ⟨Level.error,
          "Skipping tunnel due to missing src_addr and no default specified"⟩ := by
      unfold resolveSrc
      rw [if_pos hb0, if_neg hbif, if_neg hbsa]
    rw [resolveEntry_srcfail st currentGifs lookupIP getIfAddr c isIPv6 _ h1 h2 h3 hsrc]

/-- Claim C5 witness: the amended theorem applied to settings with only a
static default address configured. -/
theorem claim5_witness :
    resolveSrc stAddrOnly (fun _ _ => none) false cfgNoSrc =
      .ok (stAddrOnly.defaultSrcAddr, [⟨Level.info, "Using default src_addr"⟩]) :=
  (claim5_amended stAddrOnly (fun _ _ => none) false cfgNoSrc [] (fun _ => none)
    rfl (by decide) (by decide) (by decide)).2.1 rfl (by decide)

/-- Invariant of fetchConfig's validation loop: the three duplicate-detection
sets are exactly the projections of the accepted list, and those projections
are duplicate-free. -/
def fetchInv (s : FetchState) : Prop :=
  s.tunnelIDs = s.valid.map (fun c => c.tunnelID) ∧
  s.dstAddrs = s.valid.map (fun c => c.dstAddr) ∧
  s.vlanIDs = s.valid.map (fun c => c.vlanID) ∧
  (s.valid.map (fun c => c.tunnelID)).Nodup ∧
  (s.valid.map (fun c => c.dstAddr)).Nodup ∧
  (s.valid.map (fun c => c.vlanID)).Nodup

theorem fetchInv_init : fetchInv FetchState.init := by
  simp [fetchInv, FetchState.init]

theorem fetchStep_inv (st : Settings) (currentGifs : List (String × InterfaceConfig))
    (lookupIP : String → Option (List IP)) (getIfAddr : String → Bool → Option String)
    (s : FetchState) (c : TunnelConfig) (h : fetchInv s) :
    fetchInv (fetchStep st currentGifs lookupIP getIfAddr s c) := by
  obtain ⟨e1, e2, e3, n1, n2, n3⟩ := h
  unfold fetchStep
  cases hre : resolveEntry st currentGifs lookupIP getIfAddr c with
  | mk oc evs =>
    cases oc with
    | none => exact ⟨e1, e2, e3, n1, n2, n3⟩
    | some cv =>
      show fetchInv (fetchDedup s cv evs)
      unfold fetchDedup
      by_cases m1 : cv.tunnelID ∈ s.tunnelIDs
      · rw [if_pos m1]
        exact ⟨e1, e2, e3, n1, n2, n3⟩
      · rw [if_neg m1]
        by_cases m2 : cv.dstAddr ∈ s.dstAddrs
        · rw [if_pos m2]
          exact ⟨e1, e2, e3, n1, n2, n3⟩
        · rw [if_neg m2]
          by_cases m3 : cv.vlanID ∈ s.vlanIDs
          · rw [if_pos m3]
            exact ⟨e1, e2, e3, n1, n2, n3⟩
          · rw [if_neg m3]
            have m1' : cv.tunnelID ∉ s.valid.map (fun c => c.tunnelID) := by
              rw [← e1]; exact m1
            have m2' : cv.dstAddr ∉ s.valid.map (fun c => c.dstAddr) := by
              rw [← e2]; exact m2
            have m3' : cv.vlanID ∉ s.valid.map (fun c => c.vlanID) := by
              rw [← e3]; exact m3
            refine ⟨by simp [e1], by simp [e2], by simp [e3], ?_, ?_, ?_⟩
            · rw [List.map_append]
              simp [List.nodup_append, n1, m1']
            · rw [List.map_append]
              simp [List.nodup_append, n2, m2']
            · rw [List.map_append]
              simp [List.nodup_append, n3, m3']

theorem fetchValidate_inv (st : Settings) (currentGifs : List (String × InterfaceConfig))
    (lookupIP : String → Option (List IP)) (getIfAddr : String → Bool → Option String)
    (configs : List TunnelConfig) :
    fetchInv (fetchValidate st currentGifs lookupIP getIfAddr configs) := by
  unfold fetchValidate
  have hgen : ∀ (l : List TunnelConfig) (s : FetchState), fetchInv s →
      fetchInv (l.foldl (fetchStep st currentGifs lookupIP getIfAddr) s) := by
    intro l
    induction l with
    | nil => intro s hs; exact hs
    | cons a rest ih =>
      intro s hs
      exact ih _ (fetchStep_inv st currentGifs lookupIP getIfAddr s a hs)
  exact hgen configs FetchState.init fetchInv_init

/-- Claim C8: the retained spec list always has globally unique tunnel_id,
resolved dst_addr and vlan_id; an entry surviving resolution is accepted
exactly when none of its three keys clashes with an entry accepted earlier
in the same batch, and on a clash it is dropped with exactly one
error-level duplicate report appended. -/
theorem claim8 (st : Settings) (currentGifs : List (String × InterfaceConfig))
    (lookupIP : String → Option (List IP)) (getIfAddr : String → Bool → Option String)
    (configs : List TunnelConfig) :
    (((fetchValidate st currentGifs lookupIP getIfAddr configs).valid.map
        (fun c => c.tunnelID)).Nodup ∧
      ((fetchValidate st currentGifs lookupIP getIfAddr configs).valid.map
        (fun c => c.dstAddr)).Nodup ∧
      ((fetchValidate st currentGifs lookupIP getIfAddr configs).valid.map
        (fun c => c.vlanID)).Nodup) ∧
    (dupTunnelReport.level = Level.error ∧ dupDstReport.level = Level.error ∧
      dupVlanReport.level = Level.error) ∧
    (∀ (s : FetchState) (c cv : TunnelConfig) (evs : List Report), fetchInv s →
      resolveEntry st currentGifs lookupIP getIfAddr c = (some cv, evs) →
      (((fetchStep st currentGifs lookupIP getIfAddr s c).valid = s.valid ++ [cv]) ↔
        ((∀ p ∈ s.valid, p.tunnelID ≠ cv.tunnelID) ∧
         (∀ p ∈ s.valid, p.dstAddr ≠ cv.dstAddr) ∧
         (∀ p ∈ s.valid, p.vlanID ≠ cv.vlanID))) ∧
      ((∃ p ∈ s.valid, p.tunnelID = cv.tunnelID ∨ p.dstAddr = cv.dstAddr ∨
          p.vlanID = cv.vlanID) →
        (fetchStep st currentGifs lookupIP getIfAddr s c).valid = s.valid ∧
        ((fetchStep st currentGifs lookupIP getIfAddr s c).events =
            s.events ++ evs ++ [dupTunnelReport] ∨
          (fetchStep st currentGifs lookupIP getIfAddr s c).events =
            s.events ++ evs ++ [dupDstReport] ∨
          (fetchStep st currentGifs lookupIP getIfAddr s c).events =
            s.events ++ evs ++ [dupVlanReport]))) := by
  refine ⟨?_, ⟨rfl, rfl, rfl⟩, ?_⟩
  · obtain ⟨-, -, -, n1, n2, n3⟩ :=
      fetchValidate_inv st currentGifs lookupIP getIfAddr configs
    exact ⟨n1, n2, n3⟩
  · intro s c cv evs hinv hres
    obtain ⟨e1, e2, e3, n1, n2, n3⟩ := hinv
    have hm1 : cv.tunnelID ∈ s.tunnelIDs ↔ ∃ p ∈ s.valid, p.tunnelID = cv.tunnelID := by
      rw [e1]
      simp [List.mem_map]
    have hm2 : cv.dstAddr ∈ s.dstAddrs ↔ ∃ p ∈ s.valid, p.dstAddr = cv.dstAddr := by
      rw [e2]
      simp [List.mem_map]
    have hm3 : cv.vlanID ∈ s.vlanIDs ↔ ∃ p ∈ s.valid, p.vlanID = cv.vlanID := by
      rw [e3]
      simp [List.mem_map]
    have hne : s.valid ≠ s.valid ++ [cv] := by
      intro hh
      have := congrArg List.length hh
      simp at this
    have hstep : fetchStep st currentGifs lookupIP getIfAddr s c = fetchDedup s cv evs := by
      unfold fetchStep
      rw [hres]
    rw [hstep]
    unfold fetchDedup
    by_cases m1 : cv.tunnelID ∈ s.tunnelIDs
    · rw [if_pos m1]
      constructor
      · constructor
        · intro hh
          exact absurd hh hne
        · rintro ⟨ha, -, -⟩
          obtain ⟨p, hp, he⟩ := hm1.mp m1
          exact absurd he (ha p hp)
      · intro _
        exact ⟨rfl, Or.inl rfl⟩
    · rw [if_neg m1]
      by_cases m2 : cv.dstAddr ∈ s.dstAddrs
      · rw [if_pos m2]
        constructor
        · constructor
          · intro hh
            exact absurd hh hne
          · rintro ⟨-, ha, -⟩
            obtain ⟨p, hp, he⟩ := hm2.mp m2
            exact absurd he (ha p hp)
        · intro _
          exact ⟨rfl, Or.inr (Or.inl rfl)⟩
      · rw [if_neg m2]
        by_cases m3 : cv.vlanID ∈ s.vlanIDs
        · rw [if_pos m3]
          constructor
          · constructor
            · intro hh
              exact absurd hh hne
            · rintro ⟨-, -, ha⟩
              obtain ⟨p, hp, he⟩ := hm3.mp m3
              exact absurd he (ha p hp)
          · intro _
            exact ⟨rfl, Or.inr (Or.inr rfl)⟩
        · rw [if_neg m3]
          constructor
          · constructor
            · intro _
              refine ⟨?_, ?_, ?_⟩
              · intro p hp he
                exact m1 (hm1.mpr ⟨p, hp, he⟩)
              · intro p hp he
                exact m2 (hm2.mpr ⟨p, hp, he⟩)
              · intro p hp he
                exact m3 (hm3.mpr ⟨p, hp, he⟩)
            · intro _
              rfl
          · rintro ⟨p, hp, he | he | he⟩
            · exact absurd (hm1.mpr ⟨p, hp, he⟩) m1
            · exact absurd (hm2.mpr ⟨p, hp, he⟩) m2
            · exact absurd (hm3.mpr ⟨p, hp, he⟩) m3

/-- Claim C8 witness: a concrete batch carrying a duplicate tunnel_id, a
duplicate resolved dst_addr and a duplicate vlan_id leaves a retained list
with pairwise distinct keys. -/
theorem claim8_witness :
    (((fetchValidate stEm0 [] (fun _ => none) (fun _ _ => none)
        [⟨"1", "10.0.0.1", "192.0.2.1", "", "100", "", ""⟩,
         ⟨"1", "10.0.0.2", "192.0.2.2", "", "101", "", ""⟩,
         ⟨"2", "10.0.0.3", "192.0.2.1", "", "102", "", ""⟩,
         ⟨"3", "10.0.0.4", "192.0.2.3", "", "100", "", ""⟩]).valid.map
          (fun c => c.tunnelID)).Nodup ∧
      ((fetchValidate stEm0 [] (fun _ => none) (fun _ _ => none)
        [⟨"1", "10.0.0.1", "192.0.2.1", "", "100", "", ""⟩,
         ⟨"1", "10.0.0.2", "192.0.2.2", "", "101", "", ""⟩,
         ⟨"2", "10.0.0.3", "192.0.2.1", "", "102", "", ""⟩,
         ⟨"3", "10.0.0.4", "192.0.2.3", "", "100", "", ""⟩]).valid.map
          (fun c => c.dstAddr)).Nodup ∧
      ((fetchValidate stEm0 [] (fun _ => none) (fun _ _ => none)
        [⟨"1", "10.0.0.1", "192.0.2.1", "", "100", "", ""⟩,
         ⟨"1", "10.0.0.2", "192.0.2.2", "", "101", "", ""⟩,
         ⟨"2", "10.0.0.3", "192.0.2.1", "", "102", "", ""⟩,
         ⟨"3", "10.0.0.4", "192.0.2.3", "", "100", "", ""⟩]).valid.map
          (fun c => c.vlanID)).Nodup) :=
  (claim8 stEm0 [] (fun _ => none) (fun _ _ => none)
    [⟨"1", "10.0.0.1", "192.0.2.1", "", "100", "", ""⟩,
     ⟨"1", "10.0.0.2", "192.0.2.2", "", "101", "", ""⟩,
     ⟨"2", "10.0.0.3", "192.0.2.1", "", "102", "", ""⟩,
     ⟨"3", "10.0.0.4", "192.0.2.3", "", "100", "", ""⟩]).1

/-- Claim C10: a successfully parsed document whose every entry is rejected
leaves the cycle running with an empty accepted list; the diff then
classifies every observed gif and bridge as remove and nothing else, and the
apply trace is exactly the destroy command for every observed gif, bridge
and collected VLAN interface: a single-pass teardown of the whole managed
topology. -/
theorem claim10 (st : Settings) (parsedDoc : List TunnelConfig)
    (currentGifs : List (String × InterfaceConfig)) (currentVLANs : List (String × String))
    (currentBridges : List (String × BridgeConfig))
    (lookupIP : String → Option (List IP)) (getIfAddr : String → Bool → Option String)
    (ex : List String → Bool)
    (hempty : (fetchValidate st currentGifs lookupIP getIfAddr parsedDoc).valid = []) :
    fetchConfigResult (some parsedDoc) st currentGifs lookupIP getIfAddr = some [] ∧
    calculateDiff currentGifs currentBridges
        (fetchValidate st currentGifs lookupIP getIfAddr parsedDoc).valid st.physicalIface =
      { gifsToAdd := [], gifsToModify := [], gifsToRemove := currentGifs,
        bridgesToAdd := [], bridgesToRemove := currentBridges } ∧
    applyConfig (calculateDiff currentGifs currentBridges
        (fetchValidate st currentGifs lookupIP getIfAddr parsedDoc).valid st.physicalIface)
      (fetchValidate st currentGifs lookupIP getIfAddr parsedDoc).valid st
      currentGifs currentVLANs currentBridges false ex =
      destroyCmds (currentGifs.map Prod.fst) ++ destroyCmds (currentBridges.map Prod.fst)
        ++ destroyCmds (currentVLANs.map Prod.fst) := by
  rw [hempty]
  have hdiff : calculateDiff currentGifs currentBridges [] st.physicalIface =
      { gifsToAdd := [], gifsToModify := [], gifsToRemove := currentGifs,
        bridgesToAdd := [], bridgesToRemove := currentBridges } := by
    unfold calculateDiff
    simp only [List.foldl_nil, DiffResult.mk.injEq]
    refine ⟨rfl, rfl, ?_, rfl, ?_⟩
    · rw [List.filter_eq_self]
      intro kv _
      simp [List.lookup]
    · rw [List.filter_eq_self]
      intro kv _
      simp [List.lookup]
  refine ⟨?_, hdiff, ?_⟩
  · show some (fetchValidate st currentGifs lookupIP getIfAddr parsedDoc).valid = some []
    rw [hempty]
  · rw [hdiff]
    unfold applyConfig
    have hcl : vlanCleanup currentVLANs [] st.physicalIface = currentVLANs.map Prod.fst := by
      unfold vlanCleanup
      rw [List.filter_eq_self]
      intro a _
      simp
    rw [hcl]
    simp

/-- Fixture: a document whose single entry lacks its tunnel_id. -/
def doc10 : List TunnelConfig := [⟨"", "", "", "", "", "", ""⟩]

/-- Fixture: an observed gif unrelated to doc10. -/
def gifs10 : List (String × InterfaceConfig) :=
  [("gif9", ⟨"10.0.0.9", "192.0.2.99", "", false, "9", ""⟩)]

/-- Fixture: an observed VLAN interface unrelated to doc10. -/
def vlans10 : List (String × String) := [("em0.900", "900")]

/-- Fixture: an observed bridge unrelated to doc10. -/
def bridges10 : List (String × BridgeConfig) :=
  [("bridge9", ⟨["gif9", "em0.900"], "9"⟩)]

/-- Claim C10 witness: the theorem applied to a concrete all-invalid document
over a concrete observed topology. -/
theorem claim10_witness :
    applyConfig (calculateDiff gifs10 bridges10
        (fetchValidate stEm0 gifs10 (fun _ => none) (fun _ _ => none) doc10).valid
        stEm0.physicalIface)
      (fetchValidate stEm0 gifs10 (fun _ => none) (fun _ _ => none) doc10).valid stEm0
      gifs10 vlans10 bridges10 false exTrue =
      destroyCmds (gifs10.map Prod.fst) ++ destroyCmds (bridges10.map Prod.fst)
        ++ destroyCmds (vlans10.map Prod.fst) :=
  (claim10 stEm0 doc10 gifs10 vlans10 bridges10 (fun _ => none) (fun _ _ => none) exTrue
    (by decide)).2.2

end Eipconf
